import Mathlib

/-
Verification development for the CUPTI PC sampling collector
(third_party/proton/csrc/lib/Profiler/Cupti/CuptiPCSampling.cpp).
The definitions below are a shallow embedding of that translation unit.
External CUPTI driver calls and collaborators that live outside the
translation unit are modelled as oracle functions carried in the `Hw`
structure; repository pieces that are declared but not defined in the
translation unit (ThreadSafeMap, ThreadSafeSet, doubleCheckedLock, the
PCSamplingMetric kind list, the metric-store Data interface) are modelled
from the specification and marked as such in their doc comments.
-/

/-- Literal constants used as string arguments (kept as named definitions). -/
def emptyStr : String := ""

def notIssuedMarker : String := "not_issued"

def memoryDependencyName : String := "memory_dependency"

def executionDependencyName : String := "execution_dependency"

def invalidStallReasonMsg : String := "Invalid stall reason index"

def outOfFuelMsg : String := "model fuel exhausted"

def slashStr : String := "/"

def colonStr : String := ":"

def atStr : String := "@"

/-- Substring test on char lists, mirroring std::string::find(pat) != npos. -/
def hasSubstrAux (pat : List Char) : List Char → Bool
  | [] => pat.isEmpty
  | c :: rest => pat.isPrefixOf (c :: rest) || hasSubstrAux pat rest

/-- Substring test on strings, mirroring std::string::find(pat) != npos. -/
def strContains (s pat : String) : Bool :=
  hasSubstrAux pat.toList s.toList

/-- Lookup in an association list, modelling std::map::find / count. -/
def alistFind {κ α : Type} [DecidableEq κ] (k : κ) : List (κ × α) → Option α
  | [] => none
  | (k2, v) :: rest => if k2 = k then some v else alistFind k rest

/-- Update-or-append in an association list, modelling assignment through
std::map::operator[] (the ordering of entries is irrelevant to the claims;
only lookup and key multiplicity are used). -/
def alistSet {κ α : Type} [DecidableEq κ] (k : κ) (v : α) : List (κ × α) → List (κ × α)
  | [] => [(k, v)]
  | (k2, v2) :: rest => if k2 = k then (k2, v) :: rest else (k2, v2) :: alistSet k v rest

/-- Erase by key in an association list, modelling std::map::erase. -/
def alistErase {κ α : Type} [DecidableEq κ] (k : κ) (l : List (κ × α)) : List (κ × α) :=
  l.filter (fun e => decide (e.1 ≠ k))

/-- Insert into a set of indices, modelling std::set::insert. -/
def setInsert (k : Nat) (s : List Nat) : List Nat :=
  if k ∈ s then s else s ++ [k]

/-- Modelled from the spec: Data/Metric.h is not under src. The spec describes
MetricKind as a closed enumeration of recognized stall-reason categories
(memory-dependency, execution-dependency, not-issued and so on) whose
canonical substring for kind j is returned by PCSamplingMetric().getValueName(j).
Kinds are modelled as positions in this list of canonical substrings. -/
def pcSamplingMetricNames : List String :=
  [memoryDependencyName, executionDependencyName, notIssuedMarker]

/-- Matched test for one (name, index) entry: the first metric kind whose
canonical substring occurs in the stall reason name, as in the inner j loop
of matchStallReasonsToIndices. -/
def matchedEntry (metricNames : List String) (e : String × Nat) : Bool :=
  (List.findIdx? (fun mn => strContains e.1 mn) metricNames).isSome

/-- Result of the first pass of matchStallReasonsToIndices (the i loop at
lines 100-115): per-entry valid flags, the updated index-to-metric map and
not-issued set, and numValidStalls. -/
structure ScanResult where
  validIndex : List Bool
  stallReasonIndexToMetricIndex : List (Nat × Nat)
  notIssuedStallReasonIndices : List Nat
  numValidStalls : Nat
deriving DecidableEq

/-- First pass of matchStallReasonsToIndices (CuptiPCSampling.cpp lines
100-115), walking the (name, index) entries in order: an entry is valid when
some metric kind substring occurs in its name (first match wins); a valid
entry whose name also holds the not-issued marker has its index added to the
not-issued set, and its index is mapped to the matched metric kind. -/
def matchScan (metricNames : List String) :
    List (String × Nat) → List (Nat × Nat) → List Nat → ScanResult
  | [], m, ni => ⟨[], m, ni, 0⟩
  | e :: rest, m, ni =>
    match List.findIdx? (fun mn => strContains e.1 mn) metricNames with
    | some j =>
      let ni2 := if strContains e.1 notIssuedMarker then setInsert e.2 ni else ni
      let r := matchScan metricNames rest (alistSet e.2 j m) ni2
      ⟨true :: r.validIndex, r.stallReasonIndexToMetricIndex,
        r.notIssuedStallReasonIndices, r.numValidStalls + 1⟩
    | none =>
      let r := matchScan metricNames rest m ni
      ⟨false :: r.validIndex, r.stallReasonIndexToMetricIndex,
        r.notIssuedStallReasonIndices, r.numValidStalls⟩

/-- Default (String, Nat) entry used by positional getD reads of the swap
loop; all reads are in bounds so the default never surfaces. -/
def entryDflt : String × Nat := (emptyStr, 0)

/-- Positional swap of two entries, modelling the paired
std::swap(stallReasonIndices[a], stallReasonIndices[b]) and
std::swap(stallReasonNames[a], stallReasonNames[b]) at lines 121-122; the
two arrays are swapped in lockstep and are therefore modelled as one list of
(name, index) pairs. -/
def swapEntries (l : List (String × Nat)) (a b : Nat) : List (String × Nat) :=
  (l.set a (l.getD b entryDflt)).set b (l.getD a entryDflt)

/-- State of the second pass (lines 116-126): the entry list, the mutable
valid flags, and invalidIndex (none models the C int value -1). -/
structure PartState where
  entries : List (String × Nat)
  valid : List Bool
  inv : Option Nat
deriving DecidableEq

/-- One iteration of the second pass of matchStallReasonsToIndices (lines
117-126): remember the first invalid position; afterwards swap each valid
entry down to invalidIndex, mark that position valid, and advance. -/
def partStep (st : PartState) (i : Nat) : PartState :=
  match st.inv with
  | none =>
    if st.valid.getD i false then st else { st with inv := some i }
  | some k =>
    if st.valid.getD i false then
      { entries := swapEntries st.entries k i,
        valid := st.valid.set k true,
        inv := some (k + 1) }
    else st

/-- Result of matchStallReasonsToIndices: the (possibly reordered) name and
index arrays, the reference parameters after insertion, and the returned
numValidStalls. -/
structure MatchResult where
  stallReasonNames : List String
  stallReasonIndices : List Nat
  stallReasonIndexToMetricIndex : List (Nat × Nat)
  notIssuedStallReasonIndices : List Nat
  numValidStalls : Nat
deriving DecidableEq

/-- matchStallReasonsToIndices (CuptiPCSampling.cpp lines 91-128). The two
arrays always have length numStallReasons and are traversed and swapped in
lockstep, so they are embedded as the zip of the two lists. -/
def matchStallReasonsToIndices (metricNames : List String)
    (stallReasonNames : List String) (stallReasonIndices : List Nat)
    (m0 : List (Nat × Nat)) (ni0 : List Nat) : MatchResult :=
  let entries := stallReasonNames.zip stallReasonIndices
  let scan := matchScan metricNames entries m0 ni0
  let st := (List.range entries.length).foldl partStep ⟨entries, scan.validIndex, none⟩
  ⟨st.entries.map Prod.fst, st.entries.map Prod.snd,
    scan.stallReasonIndexToMetricIndex, scan.notIssuedStallReasonIndices,
    scan.numValidStalls⟩

/-- Modelled from the spec words, for comparison only (claim C2): a stable
partition keeps both the matched entries and the unmatched entries in their
original relative order, with the unmatched ones moved to the tail. -/
def specStablePartition (metricNames : List String) (entries : List (String × Nat)) :
    List (String × Nat) :=
  entries.filter (matchedEntry metricNames) ++
    entries.filter (fun e => !(matchedEntry metricNames e))

/-- Cached source line identity for one (functionIndex, pcOffset) key
(CubinData::LineInfo in the spec data model: lineNumber, functionName,
directory, fileName). -/
structure LineInfo where
  lineNumber : Nat := 0
  functionName : String := emptyStr
  dirName : String := emptyStr
  fileName : String := emptyStr
deriving DecidableEq

/-- Default LineInfo value used by getD after a guaranteed insertion. -/
def lineInfoDflt : LineInfo := {}

/-- One registry entry: checksum, borrowed binary bytes (modelled as a
String), size, and the lazily populated line info cache. -/
structure CubinData where
  cubinCrc : Nat := 0
  cubinSize : Nat := 0
  cubin : String := emptyStr
  lineInfo : List ((Nat × Nat) × LineInfo) := []
deriving DecidableEq

/-- Modelled from the spec: ThreadSafeMap (Utility/Map.h, not under src) is a
mutex-guarded std::map; sequentially it is a map from checksum to the pair
(CubinData, reference count), with operator[] inserting a default pair when
the key is absent. -/
def CubinMap : Type := List (Nat × (CubinData × Nat))

instance : DecidableEq CubinMap := by
  unfold CubinMap
  exact inferInstance

/-- One hardware stall reason slot of a sampled PC
(CUpti_PCSamplingStallReason: index and sample count). -/
structure StallReason where
  pcSamplingStallReasonIndex : Nat := 0
  samples : Nat := 0
deriving DecidableEq

/-- One sampled PC record (CUpti_PCSamplingPCData). The C struct carries
stallReasonCount and a pointer to that many slots; both are modelled by the
stallReason list, whose length is the count. -/
structure PCData where
  cubinCrc : Nat := 0
  functionIndex : Nat := 0
  pcOffset : Nat := 0
  functionName : String := emptyStr
  stallReason : List StallReason := []
deriving DecidableEq

/-- Host side sample buffer (CUpti_PCSamplingData): the per-record size, the
capacity in PCs, the delivered and remaining counts, and the record array. -/
structure PCSamplingData where
  size : Nat := 0
  collectNumPcs : Nat := 0
  totalNumPcs : Nat := 0
  remainingNumPcs : Nat := 0
  pPcData : List PCData := []
deriving DecidableEq

/-- One configuration attribute handed to
cupti::pcSamplingSetConfigurationAttribute, mirroring the attribute types
built by the ConfigureData::configure* helpers. -/
inductive ConfigInfo where
  | stallReason (stallReasonCount : Nat) (stallReasonIndexList : List Nat)
  | samplingPeriod (period : Nat)
  | hardwareBufferSize (size : Nat)
  | scratchBufferSize (size : Nat)
  | samplingDataBuffer (buffer : PCSamplingData)
  | startStopControl (enable : Bool)
  | collectionMode
deriving DecidableEq

/-- Hardware control calls issued by the collector, recorded as a trace. -/
inductive HwEvent where
  | enablePCSampling (ctx : Nat)
  | disablePCSampling (ctx : Nat)
  | startPCSampling (ctx : Nat)
  | stopPCSampling (ctx : Nat)
  | ctxSynchronize
  | getPCSamplingData (ctx : Nat)
  | setConfigurationAttribute (ctx : Nat) (infos : List ConfigInfo)
deriving DecidableEq

/-- Oracle bundle for the CUPTI driver and CUDA runtime: checksum
computation, context id resolution, stall reason enumeration, the runtime
library version (cupti::getVersion), the compile time CUPTI_API_VERSION and
sizeof(CUpti_PCSamplingPCData) of the build, source correlation (returning
none for a fileName or dirName pointer left NULL), and the successive buffer
states produced by cupti::pcSamplingGetData. -/
structure Hw where
  crcOf : String → Nat → Nat
  ctxIdOf : Nat → Nat
  numStallReasonsOf : Nat → Nat
  stallReasonsOf : Nat → List String × List Nat
  libVersion : Nat
  cuptiApiVersion : Nat
  sizeofPCData : Nat
  sassToSource : String → Nat → String → Nat → Nat × Option String × Option String
  fetchData : Nat → PCSamplingData

/-- Version boundary CUPTI_CUDA12_4_VERSION (line 130). -/
def CUPTI_CUDA12_4_VERSION : Nat := 22

/-- Padding width CUPTI_CUDA12_4_PC_DATA_PADDING_SIZE = sizeof(uint32_t)
(line 131). -/
def CUPTI_CUDA12_4_PC_DATA_PADDING_SIZE : Nat := 4

/-- Modelled from the spec: fixed default constants declared in
CuptiPCSampling.h, which is not under src (fixed default PC capacity,
sampling period, hardware and scratch buffer sizes). No claim depends on the
numeric values. -/
def DataBufferPCCount : Nat := 128

/-- Modelled from the spec: fixed default sampling period. -/
def DefaultFrequency : Nat := 10

/-- Modelled from the spec: fixed default hardware buffer size. -/
def HardwareBufferSize : Nat := 134217728

/-- Modelled from the spec: fixed default scratch buffer size. -/
def ScratchBufferSize : Nat := 16777216

/-- allocPCSamplingData (lines 133-157): queries the runtime version, uses
the full record size unless the runtime version predates the 12.4 boundary
while the header version is at or beyond it (then one trailing 32-bit field
is subtracted), and allocates collectNumPCs zeroed records, each with a
stall reason slot array of numValidStallReasons zeroed slots. -/
def allocPCSamplingData (hw : Hw) (collectNumPCs numValidStallReasons : Nat) :
    PCSamplingData :=
  let pcDataSize :=
    if hw.libVersion < CUPTI_CUDA12_4_VERSION ∧
        CUPTI_CUDA12_4_VERSION ≤ hw.cuptiApiVersion then
      hw.sizeofPCData - CUPTI_CUDA12_4_PC_DATA_PADDING_SIZE
    else hw.sizeofPCData
  { size := pcDataSize,
    collectNumPcs := collectNumPCs,
    totalNumPcs := 0,
    remainingNumPcs := 0,
    pPcData := List.replicate collectNumPCs
      { stallReason := List.replicate numValidStallReasons ({} : StallReason) } }

/-- Per-context configuration object (ConfigureData): context handle and id,
the stall reason catalog and mapping, the owned sample buffer, and the
ordered configuration attribute list. -/
structure ConfigureData where
  context : Nat := 0
  contextId : Nat := 0
  numStallReasons : Nat := 0
  numValidStallReasons : Nat := 0
  stallReasonNames : List String := []
  stallReasonIndices : List Nat := []
  stallReasonIndexToMetricIndex : List (Nat × Nat) := []
  notIssuedStallReasonIndices : List Nat := []
  pcSamplingData : PCSamplingData := {}
  configurationInfos : List ConfigInfo := []
deriving DecidableEq

/-- ConfigureData::initialize (lines 294-305) together with the configure*
helpers it calls in order (stall reasons, sampling period, hardware buffer
size, scratch buffer, sampling data buffer, start stop control, collection
mode), ending in one setConfigurationAttribute batch. configureStallReasons
(lines 221-236) queries the stall reason catalog and runs
matchStallReasonsToIndices into the member maps; configureSamplingBuffer
(lines 247-256) allocates the host buffer with the fixed PC capacity and the
numValidStallReasons computed by the match. -/
def ConfigureData.initCtx (cd0 : ConfigureData) (hw : Hw) (context : Nat) :
    ConfigureData × List HwEvent :=
  let contextId := hw.ctxIdOf context
  let n := hw.numStallReasonsOf context
  let names := (hw.stallReasonsOf context).1
  let indices := (hw.stallReasonsOf context).2
  let r := matchStallReasonsToIndices pcSamplingMetricNames names indices
      cd0.stallReasonIndexToMetricIndex cd0.notIssuedStallReasonIndices
  let buf := allocPCSamplingData hw DataBufferPCCount r.numValidStalls
  let infos : List ConfigInfo :=
    [ConfigInfo.stallReason r.numValidStalls r.stallReasonIndices,
      ConfigInfo.samplingPeriod DefaultFrequency,
      ConfigInfo.hardwareBufferSize HardwareBufferSize,
      ConfigInfo.scratchBufferSize ScratchBufferSize,
      ConfigInfo.samplingDataBuffer buf,
      ConfigInfo.startStopControl true,
      ConfigInfo.collectionMode]
  ({ cd0 with
      context := context,
      contextId := contextId,
      numStallReasons := n,
      numValidStallReasons := r.numValidStalls,
      stallReasonNames := r.stallReasonNames,
      stallReasonIndices := r.stallReasonIndices,
      stallReasonIndexToMetricIndex := r.stallReasonIndexToMetricIndex,
      notIssuedStallReasonIndices := r.notIssuedStallReasonIndices,
      pcSamplingData := buf,
      configurationInfos := cd0.configurationInfos ++ infos },
    [HwEvent.setConfigurationAttribute context infos])

/-- One metric record (PCSamplingMetric(metricKind, samples,
stalledSamples)); the kind is the metric index resolved from the stall
reason mapping. -/
structure PCSamplingMetric where
  kind : Nat
  samples : Nat
  stalledSamples : Nat
deriving DecidableEq

/-- Modelled from the spec: one downstream metric-store data sink exposing
addScope(parentScopeId, name) -> scopeId, which creates or returns the
existing child scope of that name under the parent, and addMetric(scopeId,
metric), which records the metric. Recorded metrics are kept in emission
order. -/
structure DataSink where
  nextScopeId : Nat := 0
  scopes : List ((Nat × String) × Nat) := []
  metrics : List (Nat × PCSamplingMetric) := []
deriving DecidableEq

/-- Modelled from the spec: addScope creates or returns the existing child
scope under a parent, by name. -/
def DataSink.addScope (d : DataSink) (parentId : Nat) (name : String) :
    DataSink × Nat :=
  match alistFind (parentId, name) d.scopes with
  | some sid => (d, sid)
  | none =>
    ({ nextScopeId := d.nextScopeId + 1,
        scopes := d.scopes ++ [((parentId, name), d.nextScopeId)],
        metrics := d.metrics },
      d.nextScopeId)

/-- Modelled from the spec: addMetric records the metric under the scope. -/
def DataSink.addMetric (d : DataSink) (scopeId : Nat) (m : PCSamplingMetric) :
    DataSink :=
  { d with metrics := d.metrics ++ [(scopeId, m)] }

/-- getSassToSourceCorrelation (lines 38-66): the CUPTI correlation call is
best effort and its return value is not checked; a NULL fileName or dirName
pointer yields the empty string. Returns (lineNumber, fileName, dirName). -/
def getSassToSourceCorrelation (hw : Hw) (functionName : String) (pcOffset : Nat)
    (cubin : String) (cubinSize : Nat) : Nat × String × String :=
  let r := hw.sassToSource functionName pcOffset cubin cubinSize
  (r.1, Option.getD r.2.1 emptyStr, Option.getD r.2.2 emptyStr)

/-- Name of the file qualified child scope: directory/file:function@line
(lines 376-379). -/
def fileScopeName (li : LineInfo) : String :=
  li.dirName ++ slashStr ++ li.fileName ++ colonStr ++ li.functionName ++
    atStr ++ toString li.lineNumber

/-- Processing of one stall reason slot of one sample across every data sink
(lines 366-392): an index absent from the stall reason mapping is a fatal
error; otherwise, per sink: when the call is API scoped the function name
child scope of externId is created or reused; when the cached fileName is
nonempty a further file qualified child scope is created or reused; then one
metric of the mapped kind is recorded with the observed sample count, and
with zero stalled samples exactly when the index is in the not-issued set. -/
def processStallReason (cd : ConfigureData) (externId : Nat) (isAPI : Bool)
    (li : LineInfo) (sinks : List DataSink) (sr : StallReason) :
    Except String (List DataSink) :=
  match alistFind sr.pcSamplingStallReasonIndex cd.stallReasonIndexToMetricIndex with
  | none => Except.error invalidStallReasonMsg
  | some metricKind =>
    Except.ok (sinks.map (fun d =>
      let p1 := if isAPI then DataSink.addScope d externId li.functionName
        else (d, externId)
      let p2 := if 0 < li.fileName.length then
          DataSink.addScope p1.1 p1.2 (fileScopeName li)
        else p1
      DataSink.addMetric p2.1 p2.2
        { kind := metricKind,
          samples := sr.samples,
          stalledSamples :=
            if sr.pcSamplingStallReasonIndex ∈ cd.notIssuedStallReasonIndices
            then 0 else sr.samples }))

/-- Default registry pair produced by operator[] on an absent checksum. -/
def cubinEntryDflt : CubinData × Nat := ({}, 0)

/-- Processing of one sampled PC (lines 352-393): the registry entry for its
checksum is resolved through operator[] (inserting a default entry when
absent), the line info cache is consulted and on a miss filled from the
best effort correlation (storing lineNumber, the function name, dirName and
fileName), and every stall reason slot is processed in order. -/
def processPcData (hw : Hw) (cd : ConfigureData) (externId : Nat) (isAPI : Bool)
    (st : CubinMap × List DataSink) (pc : PCData) :
    Except String (CubinMap × List DataSink) :=
  let entry := (alistFind pc.cubinCrc st.1).getD cubinEntryDflt
  let key : Nat × Nat := (pc.functionIndex, pc.pcOffset)
  let cub2 :=
    match alistFind key entry.1.lineInfo with
    | some _ => entry.1
    | none =>
      let r := getSassToSourceCorrelation hw pc.functionName pc.pcOffset
          entry.1.cubin entry.1.cubinSize
      let liNew : LineInfo :=
        { lineNumber := r.1, functionName := pc.functionName,
          dirName := r.2.2, fileName := r.2.1 }
      { entry.1 with lineInfo := alistSet key liNew entry.1.lineInfo }
  let reg2 := alistSet pc.cubinCrc (cub2, entry.2) st.1
  let li := (alistFind key cub2.lineInfo).getD lineInfoDflt
  match pc.stallReason.foldlM (processStallReason cd externId isAPI li) st.2 with
  | Except.error e => Except.error e
  | Except.ok sinks2 => Except.ok (reg2, sinks2)

/-- Drain loop of CuptiPCSampling::processPCSamplingData (lines 348-400),
with explicit fuel standing in for nontermination of the while loop: while
the buffer holds delivered PCs, the hardware reports remaining PCs, or this
is the first round, every delivered record is processed; then, exactly when
remaining PCs exist or this is the first round, one pcSamplingGetData fetch
refills the buffer and the loop repeats, else it stops. fetchIdx numbers the
successive fetches into the oracle and fetchCount counts the fetches made. -/
def drainLoop (hw : Hw) (cd : ConfigureData) (externId : Nat) (isAPI : Bool) :
    Nat → CubinMap → PCSamplingData → List DataSink → Bool → Nat → Nat →
    Except String (CubinMap × PCSamplingData × List DataSink × Nat)
  | 0, _, _, _, _, _, _ => Except.error outOfFuelMsg
  | Nat.succ fuel, reg, buf, sinks, firstRound, fetchIdx, fetchCount =>
    if 0 < buf.totalNumPcs ∨ 0 < buf.remainingNumPcs ∨ firstRound = true then
      match (buf.pPcData.take buf.totalNumPcs).foldlM
          (processPcData hw cd externId isAPI) (reg, sinks) with
      | Except.error e => Except.error e
      | Except.ok rs =>
        if 0 < buf.remainingNumPcs ∨ firstRound = true then
          drainLoop hw cd externId isAPI fuel rs.1 (hw.fetchData fetchIdx) rs.2
            false (fetchIdx + 1) (fetchCount + 1)
        else Except.ok (rs.1, buf, rs.2, fetchCount)
    else Except.ok (reg, buf, sinks, fetchCount)

/-- Global collector state (CuptiPCSampling): the process wide started flag,
the per context initialized marker set, the context id to ConfigureData map,
and the checksum to (CubinData, refcount) registry. The two maps and the set
model ThreadSafeMap and ThreadSafeSet from the spec. -/
structure CuptiPCSampling where
  pcSamplingStarted : Bool := false
  contextInitialized : List Nat := []
  contextIdToConfigureData : List (Nat × ConfigureData) := []
  cubinCrcToCubinData : CubinMap := []
deriving DecidableEq

/-- Modelled from the spec: doubleCheckedLock (Utility/Atomic.h, not under
src) checks a cheap predicate, takes the lock, re-checks the predicate and
only then runs the mutation; sequentially the predicate evaluates the same
way twice, so it reduces to a guarded call. -/
def doubleCheckedLock {α : Type} (cond : Bool) (body : Unit → α) (skip : α) : α :=
  if cond then body () else skip

/-- CuptiPCSampling::processPCSamplingData (lines 341-401): runs the drain
loop against the ConfigureData buffer starting in the first round, and
returns the updated registry, the ConfigureData with its final buffer state,
the sinks, and the number of pcSamplingGetData fetches. -/
def CuptiPCSampling.processPCSamplingData (hw : Hw) (fuel : Nat) (reg : CubinMap)
    (cd : ConfigureData) (sinks : List DataSink) (externId : Nat) (isAPI : Bool) :
    Except String (CubinMap × ConfigureData × List DataSink × Nat) :=
  match drainLoop hw cd externId isAPI fuel reg cd.pcSamplingData sinks true 0 0 with
  | Except.error e => Except.error e
  | Except.ok r => Except.ok (r.1, { cd with pcSamplingData := r.2.1 }, r.2.2.1, r.2.2.2)

/-- CuptiPCSampling::initialize (lines 315-325): under double checked
locking on the initialized marker of the context id, enable hardware
sampling, run ConfigureData::initialize on the operator[] entry of the map,
and mark the context initialized. -/
def CuptiPCSampling.initCtx (hw : Hw) (s : CuptiPCSampling) (context : Nat) :
    CuptiPCSampling × List HwEvent :=
  let contextId := hw.ctxIdOf context
  doubleCheckedLock (!(decide (contextId ∈ s.contextInitialized)))
    (fun _ =>
      let cd0 := (alistFind contextId s.contextIdToConfigureData).getD {}
      let r := ConfigureData.initCtx cd0 hw context
      ({ s with
          contextIdToConfigureData := alistSet contextId r.1 s.contextIdToConfigureData,
          contextInitialized := setInsert contextId s.contextInitialized },
        HwEvent.enablePCSampling context :: r.2))
    (s, [])

/-- CuptiPCSampling::start (lines 327-339): under double checked locking on
the started flag, initialize the context, synchronize the device, start
hardware sampling and set the flag. -/
def CuptiPCSampling.start (hw : Hw) (s : CuptiPCSampling) (context : Nat) :
    CuptiPCSampling × List HwEvent :=
  doubleCheckedLock (!s.pcSamplingStarted)
    (fun _ =>
      let r := CuptiPCSampling.initCtx hw s context
      ({ r.1 with pcSamplingStarted := true },
        r.2 ++ [HwEvent.ctxSynchronize, HwEvent.startPCSampling context]))
    (s, [])

/-- CuptiPCSampling::stop (lines 403-414): under double checked locking on
the started flag, stop hardware sampling, clear the flag and drain the
ConfigureData of the context. The sinks are the downstream data set of the
profiler. -/
def CuptiPCSampling.stop (hw : Hw) (fuel : Nat) (s : CuptiPCSampling)
    (context externId : Nat) (isAPI : Bool) (sinks : List DataSink) :
    Except String (CuptiPCSampling × List DataSink × List HwEvent) :=
  let contextId := hw.ctxIdOf context
  doubleCheckedLock s.pcSamplingStarted
    (fun _ =>
      let cd := (alistFind contextId s.contextIdToConfigureData).getD {}
      match CuptiPCSampling.processPCSamplingData hw fuel s.cubinCrcToCubinData cd
          sinks externId isAPI with
      | Except.error e => Except.error e
      | Except.ok r =>
        Except.ok
          ({ s with
              pcSamplingStarted := false,
              contextIdToConfigureData :=
                alistSet contextId r.2.1 s.contextIdToConfigureData,
              cubinCrcToCubinData := r.1 },
            r.2.2.1,
            HwEvent.stopPCSampling context ::
              List.replicate r.2.2.2 (HwEvent.getPCSamplingData context)))
    (Except.ok (s, sinks, []))

/-- CuptiPCSampling::finalize (lines 416-425): a no-op when the context was
never initialized; otherwise erase the ConfigureData entry and the
initialized marker of that context id and disable hardware sampling. -/
def CuptiPCSampling.finalize (hw : Hw) (s : CuptiPCSampling) (context : Nat) :
    CuptiPCSampling × List HwEvent :=
  let contextId := hw.ctxIdOf context
  if decide (contextId ∈ s.contextInitialized) then
    ({ s with
        contextIdToConfigureData := alistErase contextId s.contextIdToConfigureData,
        contextInitialized := s.contextInitialized.filter (fun k => decide (k ≠ contextId)) },
      [HwEvent.disablePCSampling context])
  else (s, [])

/-- CuptiPCSampling::loadModule (lines 427-433): computes the checksum,
resolves the registry pair through operator[] (default refcount 0 when
absent) and overwrites the checksum, size and bytes fields of the CubinData;
the refcount field of the pair is left untouched. -/
def CuptiPCSampling.loadModule (hw : Hw) (s : CuptiPCSampling) (cubin : String)
    (cubinSize : Nat) : CuptiPCSampling :=
  let cubinCrc := hw.crcOf cubin cubinSize
  let entry := (alistFind cubinCrc s.cubinCrcToCubinData).getD cubinEntryDflt
  let cd := { entry.1 with cubinCrc := cubinCrc, cubinSize := cubinSize, cubin := cubin }
  { s with cubinCrcToCubinData := alistSet cubinCrc (cd, entry.2) s.cubinCrcToCubinData }

/-- CuptiPCSampling::unloadModule (lines 435-444): recomputes the checksum,
reads the refcount through operator[], decrements it when it exceeds 1 and
otherwise erases the entry. -/
def CuptiPCSampling.unloadModule (hw : Hw) (s : CuptiPCSampling) (cubin : String)
    (cubinSize : Nat) : CuptiPCSampling :=
  let cubinCrc := hw.crcOf cubin cubinSize
  let entry := (alistFind cubinCrc s.cubinCrcToCubinData).getD cubinEntryDflt
  if 1 < entry.2 then
    { s with cubinCrcToCubinData :=
        alistSet cubinCrc (entry.1, entry.2 - 1) s.cubinCrcToCubinData }
  else
    { s with cubinCrcToCubinData := alistErase cubinCrc s.cubinCrcToCubinData }

/-- Stall reason names of the spec test for claim C2. -/
def specStallName1 : String := "stall_memory_dependency"

/-- Stall reason name matching the not-issued kind and marker. -/
def specStallName2 : String := "stall_not_issued"

/-- Stall reason name matching no metric kind. -/
def specStallName3 : String := "stall_unknown_xyz"

/-- Name list of the spec test for claim C2. -/
def specStallNames : List String := [specStallName1, specStallName2, specStallName3]

/-- Unmatched filler name used by the counterexample of claim C2. -/
def cexNameA : String := "zzz"

/-- Second unmatched filler name used by the counterexample of claim C2. -/
def cexNameB : String := "yyy"

/-- Counterexample name list for claim C2: unmatched and matched entries
interleaved. -/
def cexStallNames : List String := [cexNameA, specStallName1, cexNameB, specStallName2]

/-- Test oracle used by concrete instances and witnesses: identity context
ids, length based checksum, the three stall reason names from the spec test,
an always failing correlation, an always empty fetched buffer, and a runtime
version just below the 12.4 boundary with a header at the boundary. -/
def hwBase : Hw :=
  { crcOf := fun sVal _ => sVal.length,
    ctxIdOf := fun c => c,
    numStallReasonsOf := fun _ => 3,
    stallReasonsOf := fun _ => (specStallNames, [0, 1, 2]),
    libVersion := 21,
    cuptiApiVersion := 22,
    sizeofPCData := 40,
    sassToSource := fun _ _ _ _ => (0, none, none),
    fetchData := fun _ => {} }

/-- Test oracle with a runtime driver at the 12.4 boundary. -/
def hwNewDriver : Hw := { hwBase with libVersion := 22 }

/-- Function name used by the drain fixtures. -/
def fnNameTest : String := "kernel_fn"

/-- Binary image used by the drain fixtures (checksum 3 under hwBase). -/
def cubinTest : String := "abc"

/-- Sample of the claim C3 spec test: two stall reason slots, index 7 with
10 samples and index 9 with 5 samples. -/
def pcDataTest : PCData :=
  { cubinCrc := 3, functionIndex := 0, pcOffset := 16, functionName := fnNameTest,
    stallReason := [{ pcSamplingStallReasonIndex := 7, samples := 10 },
      { pcSamplingStallReasonIndex := 9, samples := 5 }] }

/-- Buffer fixture holding the one fabricated sample of claim C3. -/
def bufTest : PCSamplingData :=
  { totalNumPcs := 1, remainingNumPcs := 0, pPcData := [pcDataTest] }

/-- ConfigureData fixture: index 7 maps to the memory dependency kind 0,
index 9 maps to the not-issued kind 2 and is flagged not-issued; the buffer
holds the one fabricated sample. -/
def cdTest : ConfigureData :=
  { stallReasonIndexToMetricIndex := [(7, 0), (9, 2)],
    notIssuedStallReasonIndices := [9],
    pcSamplingData := bufTest }

/-- Registry entry for the loaded test binary. -/
def cubinDataTest : CubinData :=
  { cubinCrc := 3, cubinSize := 3, cubin := cubinTest }

/-- Registry fixture holding the loaded test binary under checksum 3. -/
def regTest : CubinMap := [(3, (cubinDataTest, 1))]

/-- One empty data sink with a recognizable first fresh scope id. -/
def sinkTest : DataSink := { nextScopeId := 100 }

/-- Sample carrying stall reason index 8, absent from the mapping of cdBad. -/
def pcDataBad : PCData :=
  { cubinCrc := 3, functionName := fnNameTest,
    stallReason := [{ pcSamplingStallReasonIndex := 8, samples := 4 }] }

/-- Buffer fixture holding the unmapped-index sample of claim C4. -/
def bufBad : PCSamplingData :=
  { totalNumPcs := 1, remainingNumPcs := 0, pPcData := [pcDataBad] }

/-- ConfigureData fixture for claim C4: the buffered sample carries stall
reason index 8, absent from the mapping. -/
def cdBad : ConfigureData :=
  { stallReasonIndexToMetricIndex := [(7, 0)],
    pcSamplingData := bufBad }

/-- Collector state fixture: sampling started, contexts 5 and 6 initialized. -/
def stateStarted : CuptiPCSampling :=
  { pcSamplingStarted := true, contextInitialized := [5, 6],
    contextIdToConfigureData := [(5, cdTest), (6, {})],
    cubinCrcToCubinData := regTest }

/-- Collector state fixture: sampling stopped, contexts 5 and 6 initialized. -/
def stateStopped : CuptiPCSampling := { stateStarted with pcSamplingStarted := false }

/-- Line info cached by the fixture drains: the correlation fails, so the
directory and file fields stay empty. -/
def lineInfoExpected : LineInfo := { lineNumber := 0, functionName := fnNameTest }

/-- Registry entry expected after the fixture drains. -/
def cubinDataExpected : CubinData :=
  { cubinDataTest with lineInfo := [((0, 16), lineInfoExpected)] }

/-- Registry expected after the fixture drains. -/
def regExpected : CubinMap := [(3, (cubinDataExpected, 1))]

/-- ConfigureData expected after the fixture drains: the buffer holds the
final fetched (empty) state. -/
def cdExpected : ConfigureData := { cdTest with pcSamplingData := {} }

/-- Sink expected after the API scoped fixture drain of claim C3. -/
def sinkExpectedApi : DataSink :=
  { nextScopeId := 101, scopes := [((55, fnNameTest), 100)],
    metrics := [(100, { kind := 0, samples := 10, stalledSamples := 10 }),
      (100, { kind := 2, samples := 5, stalledSamples := 0 })] }

/-- Sink expected after the non API scoped fixture drain of claim C8. -/
def sinkExpectedNoApi : DataSink :=
  { nextScopeId := 100, scopes := [],
    metrics := [(55, { kind := 0, samples := 10, stalledSamples := 10 }),
      (55, { kind := 2, samples := 5, stalledSamples := 0 })] }

/-- Predicate selecting hardware enable events in a trace. -/
def isEnableEvent : HwEvent → Bool
  | HwEvent.enablePCSampling _ => true
  | _ => false

/-- Predicate selecting configuration batch events in a trace. -/
def isSetConfigEvent : HwEvent → Bool
  | HwEvent.setConfigurationAttribute _ _ => true
  | _ => false

theorem zipFstSnd {α β : Type} : ∀ (l : List (α × β)),
    (l.map Prod.fst).zip (l.map Prod.snd) = l := by
  intro l
  induction l with
  | nil => rfl
  | cons e rest ih => simp [ih]

theorem matchScan_validIndex (mn : List String) :
    ∀ (es : List (String × Nat)) (m : List (Nat × Nat)) (ni : List Nat),
    (matchScan mn es m ni).validIndex = es.map (matchedEntry mn) := by
  intro es
  induction es with
  | nil => intro m ni; rfl
  | cons e rest ih =>
    intro m ni
    cases h : List.findIdx? (fun mn2 => strContains e.1 mn2) mn with
    | none => simp [matchScan, h, ih, matchedEntry]
    | some j => simp [matchScan, h, ih, matchedEntry]

theorem matchScan_numValid (mn : List String) :
    ∀ (es : List (String × Nat)) (m : List (Nat × Nat)) (ni : List Nat),
    (matchScan mn es m ni).numValidStalls = es.countP (matchedEntry mn) := by
  intro es
  induction es with
  | nil => intro m ni; rfl
  | cons e rest ih =>
    intro m ni
    cases h : List.findIdx? (fun mn2 => strContains e.1 mn2) mn with
    | none => simp [matchScan, h, ih, List.countP_cons, matchedEntry]
    | some j => simp [matchScan, h, ih, List.countP_cons, matchedEntry]

theorem partFold_range_succ (init : PartState) (i : Nat) :
    (List.range (i + 1)).foldl partStep init =
      partStep ((List.range i).foldl partStep init) i := by
  rw [List.range_succ, List.foldl_append]
  rfl

theorem length_filter_add (p : α → Bool) (l : List α) :
    (l.filter p).length + (l.filter (fun x => !(p x))).length = l.length := by
  have h := (List.filter_append_perm p l).length_eq
  simpa [List.length_append] using h

theorem set_append_len {α : Type} (A X : List α) (v : α) :
    (A ++ X).set A.length v = A ++ X.set 0 v := by
  rw [List.set_append]
  simp

theorem swapEntries_mid (A B2 rest : List (String × Nat)) (b e : String × Nat) :
    swapEntries (A ++ b :: (B2 ++ e :: rest)) A.length (A.length + (B2.length + 1)) =
      A ++ e :: (B2 ++ b :: rest) := by
  unfold swapEntries
  have hb : (A ++ b :: (B2 ++ e :: rest)).getD A.length entryDflt = b := by
    rw [List.getD_eq_getElem?_getD, List.getElem?_append_right (le_refl _)]
    simp
  have hassoc : A ++ b :: (B2 ++ e :: rest) = (A ++ b :: B2) ++ e :: rest := by
    simp
  have hlen : (A ++ b :: B2).length = A.length + (B2.length + 1) := by
    simp [List.length_append]
  have he : (A ++ b :: (B2 ++ e :: rest)).getD (A.length + (B2.length + 1)) entryDflt = e := by
    rw [List.getD_eq_getElem?_getD, hassoc, ← hlen,
      List.getElem?_append_right (le_refl _)]
    simp
  rw [hb, he, set_append_len]
  have hassoc2 : A ++ (b :: (B2 ++ e :: rest)).set 0 e = (A ++ e :: B2) ++ e :: rest := by
    simp
  have hlen2 : (A ++ e :: B2).length = A.length + (B2.length + 1) := by
    simp [List.length_append]
  rw [hassoc2, ← hlen2, set_append_len]
  simp


theorem partFold_inv (P : String × Nat → Bool) (l0 : List (String × Nat)) :
    ∀ (i : Nat), i ≤ l0.length →
    (∀ j, i ≤ j →
      ((List.range i).foldl partStep ⟨l0, l0.map P, none⟩).valid[j]? = (l0.map P)[j]?) ∧
    (((List.range i).foldl partStep ⟨l0, l0.map P, none⟩ = ⟨l0, l0.map P, none⟩ ∧
        ∀ e ∈ l0.take i, P e = true) ∨
      (∃ B, B ≠ [] ∧
        ((List.range i).foldl partStep ⟨l0, l0.map P, none⟩).inv =
          some ((l0.take i).filter P).length ∧
        ((List.range i).foldl partStep ⟨l0, l0.map P, none⟩).entries =
          (l0.take i).filter P ++ B ++ l0.drop i ∧
        B.Perm ((l0.take i).filter (fun e => !(P e))))) := by
  intro i
  induction i with
  | zero =>
    intro _
    constructor
    · intro j _; rfl
    · left
      constructor
      · rfl
      · intro e he; simp at he
  | succ i ih =>
    intro hle
    have hi : i < l0.length := Nat.lt_of_succ_le hle
    obtain ⟨ihv, ihcase⟩ := ih (Nat.le_of_lt hi)
    have hreadP : ((List.range i).foldl partStep ⟨l0, l0.map P, none⟩).valid.getD i false
        = P l0[i] := by
      rw [List.getD_eq_getElem?_getD, ihv i (le_refl i), List.getElem?_map,
        List.getElem?_eq_getElem hi]
      rfl
    have htake : l0.take (i + 1) = l0.take i ++ [l0[i]] := by
      rw [List.take_succ, List.getElem?_eq_getElem hi]
      rfl
    have hdrop : l0.drop i = l0[i] :: l0.drop (i + 1) :=
      List.drop_eq_getElem_cons hi
    rw [partFold_range_succ]
    rcases ihcase with ⟨hst, hall⟩ | ⟨B, hBne, hinv, hent, hperm⟩
    · -- invalidIndex still none
      rw [hst] at hreadP ⊢
      by_cases hPe : P l0[i] = true
      · have : partStep ⟨l0, l0.map P, none⟩ i = ⟨l0, l0.map P, none⟩ := by
          simp [partStep, List.getElem?_eq_getElem hi, hPe]
        rw [this]
        constructor
        · intro j _; rfl
        · left
          refine ⟨rfl, ?_⟩
          intro e he
          rw [htake] at he
          rcases List.mem_append.mp he with h1 | h1
          · exact hall e h1
          · simp at h1; rw [h1]; exact hPe
      · have hPe2 : P l0[i] = false := by
          cases h2 : P l0[i] with
          | true => exact absurd h2 hPe
          | false => rfl
        have : partStep ⟨l0, l0.map P, none⟩ i = ⟨l0, l0.map P, some i⟩ := by
          simp [partStep, List.getElem?_eq_getElem hi, hPe2]
        rw [this]
        have hfix : (l0.take i).filter P = l0.take i :=
          List.filter_eq_self.mpr hall
        have hfixn : (l0.take i).filter (fun e => !(P e)) = [] := by
          rw [List.filter_eq_nil_iff]
          intro a ha
          rw [hall a ha]
          simp
        constructor
        · intro j _; rfl
        · right
          refine ⟨[l0[i]], by simp, ?_, ?_, ?_⟩
          · simp only [htake, List.filter_append, hfix, hfixn]
            simp [hPe2, List.length_take, Nat.min_eq_left (Nat.le_of_lt hi)]
          · simp only [htake, List.filter_append, hfix, hfixn]
            simp only [List.filter_cons, hPe2]
            simp only [List.filter_nil, List.append_nil]
            conv_lhs => rw [← List.take_append_drop i l0, hdrop]
            simp
          · simp only [htake, List.filter_append, hfixn]
            simp [List.filter_cons, hPe2]
      -- end none case
    · -- invalidIndex = some k
      have hreadP2 : ((List.range i).foldl partStep ⟨l0, l0.map P, none⟩).valid.getD i false
          = P l0[i] := hreadP
      have hlenAB : ((l0.take i).filter P).length + B.length = i := by
        have h1 := hperm.length_eq
        have h2 := length_filter_add P (l0.take i)
        have h3 : (l0.take i).length = i := by
          rw [List.length_take]; exact Nat.min_eq_left (Nat.le_of_lt hi)
        omega
      have hklt : ((l0.take i).filter P).length < i := by
        have : 0 < B.length := List.length_pos.mpr hBne
        omega
      by_cases hPe : P l0[i] = true
      · -- swap case
        obtain ⟨b, B2, rfl⟩ : ∃ b B2, B = b :: B2 := by
          cases B with
          | nil => exact absurd rfl hBne
          | cons b B2 => exact ⟨b, B2, rfl⟩
        have hstep : partStep ((List.range i).foldl partStep ⟨l0, l0.map P, none⟩) i =
            ⟨swapEntries ((List.range i).foldl partStep ⟨l0, l0.map P, none⟩).entries
                ((l0.take i).filter P).length i,
              ((List.range i).foldl partStep ⟨l0, l0.map P, none⟩).valid.set
                ((l0.take i).filter P).length true,
              some (((l0.take i).filter P).length + 1)⟩ := by
          cases hst : (List.range i).foldl partStep ⟨l0, l0.map P, none⟩ with
          | mk en va inv0 =>
            rw [hst] at hinv hreadP2
            simp at hinv hreadP2 ⊢
            simp [partStep, hinv, hreadP2, hPe]
        rw [hstep]
        have hi2 : i = ((l0.take i).filter P).length + (B2.length + 1) := by
          simp at hlenAB
          omega
        have hentform : ((List.range i).foldl partStep ⟨l0, l0.map P, none⟩).entries =
            (l0.take i).filter P ++ b :: (B2 ++ l0[i] :: l0.drop (i + 1)) := by
          rw [hent, hdrop]
          simp
        have hswap : swapEntries ((List.range i).foldl partStep ⟨l0, l0.map P, none⟩).entries
            ((l0.take i).filter P).length i =
            (l0.take i).filter P ++ l0[i] :: (B2 ++ b :: l0.drop (i + 1)) := by
          have hgoal := swapEntries_mid ((l0.take i).filter P) B2 (l0.drop (i + 1)) b l0[i]
          rw [← hi2] at hgoal
          rw [hentform]
          exact hgoal
        have hfiltake : (l0.take (i + 1)).filter P = (l0.take i).filter P ++ [l0[i]] := by
          rw [htake, List.filter_append]
          simp [List.filter_cons, hPe]
        have hfilntake : (l0.take (i + 1)).filter (fun e => !(P e)) =
            (l0.take i).filter (fun e => !(P e)) := by
          rw [htake, List.filter_append]
          simp [List.filter_cons, hPe]
        constructor
        · intro j hj
          have hne : ((l0.take i).filter P).length ≠ j := by omega
          simp only [List.getElem?_set_ne hne]
          exact ihv j (by omega)
        · right
          refine ⟨B2 ++ [b], by simp, ?_, ?_, ?_⟩
          · simp [hfiltake]
          · rw [hswap, hfiltake]
            simp
          · rw [hfilntake]
            have h1 : (B2 ++ [b]).Perm (b :: B2) := List.perm_append_singleton b B2
            exact h1.trans hperm
      · -- no swap, entry invalid
        have hPe2 : P l0[i] = false := by
          cases h2 : P l0[i] with
          | true => exact absurd h2 hPe
          | false => rfl
        have hstep : partStep ((List.range i).foldl partStep ⟨l0, l0.map P, none⟩) i =
            (List.range i).foldl partStep ⟨l0, l0.map P, none⟩ := by
          cases hst : (List.range i).foldl partStep ⟨l0, l0.map P, none⟩ with
          | mk en va inv0 =>
            rw [hst] at hinv hreadP2
            simp at hinv hreadP2 ⊢
            simp [partStep, hinv, hreadP2, hPe2]
        rw [hstep]
        have hfiltake : (l0.take (i + 1)).filter P = (l0.take i).filter P := by
          rw [htake, List.filter_append]
          simp [List.filter_cons, hPe2]
        have hfilntake : (l0.take (i + 1)).filter (fun e => !(P e)) =
            (l0.take i).filter (fun e => !(P e)) ++ [l0[i]] := by
          rw [htake, List.filter_append]
          simp [List.filter_cons, hPe2]
        constructor
        · intro j hj
          exact ihv j (by omega)
        · right
          refine ⟨B ++ [l0[i]], by simp, ?_, ?_, ?_⟩
          · rw [hfiltake]; exact hinv
          · rw [hfiltake, hent, hdrop]
            simp
          · rw [hfilntake]
            exact hperm.append (List.Perm.refl _)

theorem matchStallReasons_general (mn names : List String) (indices : List Nat)
    (m0 : List (Nat × Nat)) (ni0 : List Nat) :
    (matchStallReasonsToIndices mn names indices m0 ni0).numValidStalls =
      (names.zip indices).countP (matchedEntry mn) ∧
    ((matchStallReasonsToIndices mn names indices m0 ni0).stallReasonNames.zip
        (matchStallReasonsToIndices mn names indices m0 ni0).stallReasonIndices).take
        (matchStallReasonsToIndices mn names indices m0 ni0).numValidStalls =
      (names.zip indices).filter (matchedEntry mn) ∧
    ((matchStallReasonsToIndices mn names indices m0 ni0).stallReasonNames.zip
        (matchStallReasonsToIndices mn names indices m0 ni0).stallReasonIndices).Perm
      (names.zip indices) ∧
    ∀ e ∈ ((matchStallReasonsToIndices mn names indices m0 ni0).stallReasonNames.zip
        (matchStallReasonsToIndices mn names indices m0 ni0).stallReasonIndices).drop
        (matchStallReasonsToIndices mn names indices m0 ni0).numValidStalls,
      matchedEntry mn e = false := by
  have hval := matchScan_validIndex mn (names.zip indices) m0 ni0
  have hnum := matchScan_numValid mn (names.zip indices) m0 ni0
  have hinv := partFold_inv (matchedEntry mn) (names.zip indices)
      (names.zip indices).length (le_refl _)
  simp only [matchStallReasonsToIndices, zipFstSnd, hval, hnum]
  refine ⟨trivial, ?_⟩
  rcases hinv.2 with ⟨hst, hall⟩ | ⟨B, hBne, _, hent, hperm⟩
  · rw [hst]
    have hall2 : ∀ e ∈ names.zip indices, matchedEntry mn e = true := by
      intro a ha
      refine hall a ?_
      rw [List.take_length]
      exact ha
    have hfix : (names.zip indices).filter (matchedEntry mn) = names.zip indices :=
      List.filter_eq_self.mpr hall2
    have hcnt : (names.zip indices).countP (matchedEntry mn) = (names.zip indices).length := by
      rw [List.countP_eq_length_filter, hfix]
    refine ⟨?_, ?_, ?_⟩
    · rw [hcnt, List.take_length, hfix]
    · exact List.Perm.refl _
    · intro e he
      rw [hcnt, List.drop_length] at he
      simp at he
  · rw [List.take_length, List.drop_length, List.append_nil] at hent
    rw [List.take_length] at hperm
    rw [hent]
    have hlenf : (names.zip indices).countP (matchedEntry mn) =
        ((names.zip indices).filter (matchedEntry mn)).length :=
      List.countP_eq_length_filter _ _
    refine ⟨?_, ?_, ?_⟩
    · rw [hlenf, List.take_left]
    · exact List.Perm.trans (List.Perm.append_left _ hperm) (List.filter_append_perm _ _)
    · intro e he
      rw [hlenf, List.drop_left] at he
      have h1 := hperm.mem_iff.mp he
      have h2 := List.of_mem_filter h1
      simp at h2
      exact h2

/-- Claim C2 counterexample: the claim calls the rearrangement a stable
partition, but on the interleaved input [unmatched, matched, unmatched,
matched] the code leaves the two unmatched entries in the tail in swapped
order, while a stable partition (specStablePartition, written from the spec
words) keeps them in original order; the outputs differ. -/
theorem claim_C2_counterexample :
    ¬ (((matchStallReasonsToIndices pcSamplingMetricNames cexStallNames
          [0, 1, 2, 3] [] []).stallReasonNames.zip
        (matchStallReasonsToIndices pcSamplingMetricNames cexStallNames
          [0, 1, 2, 3] [] []).stallReasonIndices) =
      specStablePartition pcSamplingMetricNames (cexStallNames.zip [0, 1, 2, 3])) := by
  decide

/-- Claim C2 (amended): matchStallReasonsToIndices partitions the (name,
index) entries so that the first numValid positions hold exactly the matched
entries in their original relative order, numValid equals the number of
matched entries, the output is a permutation of the input, and every entry
past the valid front is unmatched (the unmatched tail is not kept in its
original order, which is the sole amendment forced by the counterexample).
On the spec test input the function classifies exactly 2 entries valid,
keeps the two matched names in the valid front, maps stall reason index 1 to
the not-issued metric kind 2, places index 1 in the not-issued set, and
excludes the unknown name from the valid front. -/
theorem claim_C2 :
    (∀ (mn names : List String) (indices : List Nat)
        (m0 : List (Nat × Nat)) (ni0 : List Nat),
      (matchStallReasonsToIndices mn names indices m0 ni0).numValidStalls =
        (names.zip indices).countP (matchedEntry mn) ∧
      ((matchStallReasonsToIndices mn names indices m0 ni0).stallReasonNames.zip
          (matchStallReasonsToIndices mn names indices m0 ni0).stallReasonIndices).take
          (matchStallReasonsToIndices mn names indices m0 ni0).numValidStalls =
        (names.zip indices).filter (matchedEntry mn) ∧
      ((matchStallReasonsToIndices mn names indices m0 ni0).stallReasonNames.zip
          (matchStallReasonsToIndices mn names indices m0 ni0).stallReasonIndices).Perm
        (names.zip indices) ∧
      ∀ e ∈ ((matchStallReasonsToIndices mn names indices m0 ni0).stallReasonNames.zip
          (matchStallReasonsToIndices mn names indices m0 ni0).stallReasonIndices).drop
          (matchStallReasonsToIndices mn names indices m0 ni0).numValidStalls,
        matchedEntry mn e = false) ∧
    ((matchStallReasonsToIndices pcSamplingMetricNames specStallNames
        [0, 1, 2] [] []).numValidStalls = 2 ∧
      (matchStallReasonsToIndices pcSamplingMetricNames specStallNames
        [0, 1, 2] [] []).stallReasonNames.take 2 = [specStallName1, specStallName2] ∧
      alistFind 1 (matchStallReasonsToIndices pcSamplingMetricNames specStallNames
        [0, 1, 2] [] []).stallReasonIndexToMetricIndex = some 2 ∧
      1 ∈ (matchStallReasonsToIndices pcSamplingMetricNames specStallNames
        [0, 1, 2] [] []).notIssuedStallReasonIndices ∧
      ¬ specStallName3 ∈ (matchStallReasonsToIndices pcSamplingMetricNames specStallNames
        [0, 1, 2] [] []).stallReasonNames.take 2) :=
  ⟨fun mn names indices m0 ni0 => matchStallReasons_general mn names indices m0 ni0,
    by decide⟩

/-- Claim C2 witness: the general theorem applied at the spec test input,
discharging the membership hypothesis at the unmatched entry. -/
theorem claim_C2_witness :
    matchedEntry pcSamplingMetricNames (specStallName3, 2) = false :=
  (claim_C2.1 pcSamplingMetricNames specStallNames [0, 1, 2] [] []).2.2.2
    (specStallName3, 2) (by decide)

/-- Claim C1 (code bug): the claim states that loading a binary N times and
unloading it M ≤ N times leaves the registry entry present iff N > M, the
first load creating the entry with refcount 1 and repeated loads
incrementing it. The code disagrees: loadModule never increments the
refcount half of the registry pair, which stays at the operator[] default 0,
so the first unload always erases the entry. This theorem evaluates the code
at the failing input: after one load the stored refcount is 0, not 1, and
after two loads and a single unload (N = 2 > M = 1) the entry is gone even
though the claim requires it to be present. -/
theorem claim_C1 :
    (alistFind 3 (CuptiPCSampling.loadModule hwBase {} cubinTest 3).cubinCrcToCubinData).map
        Prod.snd = some 0 ∧
    alistFind 3 (CuptiPCSampling.unloadModule hwBase
        (CuptiPCSampling.loadModule hwBase
          (CuptiPCSampling.loadModule hwBase {} cubinTest 3) cubinTest 3)
        cubinTest 3).cubinCrcToCubinData = none := by
  constructor
  · rfl
  · rfl

theorem addScope_metrics (d : DataSink) (p : Nat) (n : String) :
    (DataSink.addScope d p n).1.metrics = d.metrics := by
  unfold DataSink.addScope
  cases alistFind (p, n) d.scopes <;> rfl

theorem addScope_scopes_of_found (d : DataSink) (p : Nat) (n : String) (sid : Nat)
    (h : alistFind (p, n) d.scopes = some sid) :
    DataSink.addScope d p n = (d, sid) := by
  unfold DataSink.addScope
  rw [h]

theorem processStallReason_none (cd : ConfigureData) (externId : Nat) (isAPI : Bool)
    (li : LineInfo) (sinks : List DataSink) (sr : StallReason)
    (h : alistFind sr.pcSamplingStallReasonIndex cd.stallReasonIndexToMetricIndex = none) :
    processStallReason cd externId isAPI li sinks sr = Except.error invalidStallReasonMsg := by
  unfold processStallReason
  rw [h]

theorem processStallReason_ok (cd : ConfigureData) (externId : Nat) (isAPI : Bool)
    (li : LineInfo) (sinks : List DataSink) (sr : StallReason) (mk : Nat)
    (h : alistFind sr.pcSamplingStallReasonIndex cd.stallReasonIndexToMetricIndex = some mk) :
    ∃ sinks2, processStallReason cd externId isAPI li sinks sr = Except.ok sinks2 ∧
      sinks2.length = sinks.length ∧
      ∀ j (hj : j < sinks.length) (hj2 : j < sinks2.length),
        ∃ sid, sinks2[j].metrics = sinks[j].metrics ++
          [(sid,
            { kind := mk,
              samples := sr.samples,
              stalledSamples :=
                if sr.pcSamplingStallReasonIndex ∈ cd.notIssuedStallReasonIndices
                then 0 else sr.samples })] := by
  unfold processStallReason
  rw [h]
  refine ⟨_, rfl, by simp, ?_⟩
  intro j hj hj2
  simp only [List.getElem_map]
  by_cases hapi : isAPI = true <;>
    by_cases hfile : 0 < li.fileName.length <;>
      simp [hapi, hfile, DataSink.addMetric, addScope_metrics]

theorem processStallReason_error_eq (cd : ConfigureData) (externId : Nat) (isAPI : Bool)
    (li : LineInfo) (sinks : List DataSink) (sr : StallReason) (e : String)
    (h : processStallReason cd externId isAPI li sinks sr = Except.error e) :
    e = invalidStallReasonMsg := by
  unfold processStallReason at h
  cases hf : alistFind sr.pcSamplingStallReasonIndex cd.stallReasonIndexToMetricIndex with
  | none =>
    rw [hf] at h
    injection h with h2
    exact h2.symm
  | some mk =>
    rw [hf] at h
    simp at h

theorem processSlots_error (cd : ConfigureData) (externId : Nat) (isAPI : Bool)
    (li : LineInfo) :
    ∀ (slots : List StallReason) (sinks : List DataSink),
    (∃ sr ∈ slots,
      alistFind sr.pcSamplingStallReasonIndex cd.stallReasonIndexToMetricIndex = none) →
    slots.foldlM (processStallReason cd externId isAPI li) sinks =
      Except.error invalidStallReasonMsg := by
  intro slots
  induction slots with
  | nil =>
    intro sinks h
    simp at h
  | cons sr rest ih =>
    intro sinks h
    rw [List.foldlM_cons]
    cases hf : alistFind sr.pcSamplingStallReasonIndex cd.stallReasonIndexToMetricIndex with
    | none =>
      rw [processStallReason_none _ _ _ _ _ _ hf]
      rfl
    | some mk =>
      obtain ⟨sinks2, hok, _, _⟩ := processStallReason_ok cd externId isAPI li sinks sr mk hf
      rw [hok]
      have h2 : ∃ sr2 ∈ rest,
          alistFind sr2.pcSamplingStallReasonIndex cd.stallReasonIndexToMetricIndex = none := by
        rcases h with ⟨sr0, hmem, hnone⟩
        rcases List.mem_cons.mp hmem with rfl | hmem2
        · rw [hf] at hnone
          exact absurd hnone (by simp)
        · exact ⟨sr0, hmem2, hnone⟩
      simpa using ih sinks2 h2

theorem processSlots_error_eq (cd : ConfigureData) (externId : Nat) (isAPI : Bool)
    (li : LineInfo) :
    ∀ (slots : List StallReason) (sinks : List DataSink) (e : String),
    slots.foldlM (processStallReason cd externId isAPI li) sinks = Except.error e →
    e = invalidStallReasonMsg := by
  intro slots
  induction slots with
  | nil =>
    intro sinks e h
    rw [List.foldlM_nil] at h
    exact Except.noConfusion h
  | cons sr rest ih =>
    intro sinks e h
    rw [List.foldlM_cons] at h
    cases hf : alistFind sr.pcSamplingStallReasonIndex cd.stallReasonIndexToMetricIndex with
    | none =>
      rw [processStallReason_none _ _ _ _ _ _ hf] at h
      injection h with h2
      exact h2.symm
    | some mk =>
      obtain ⟨sinks2, hok, _, _⟩ := processStallReason_ok cd externId isAPI li sinks sr mk hf
      rw [hok] at h
      exact ih sinks2 e h

theorem processSlots_ok_len (cd : ConfigureData) (externId : Nat) (isAPI : Bool)
    (li : LineInfo) :
    ∀ (slots : List StallReason) (sinks : List DataSink),
    (∀ sr ∈ slots,
      (alistFind sr.pcSamplingStallReasonIndex cd.stallReasonIndexToMetricIndex).isSome = true) →
    ∃ sinks2, slots.foldlM (processStallReason cd externId isAPI li) sinks = Except.ok sinks2 ∧
      sinks2.length = sinks.length ∧
      ∀ j (hj : j < sinks.length) (hj2 : j < sinks2.length),
        sinks2[j].metrics.length = sinks[j].metrics.length + slots.length := by
  intro slots
  induction slots with
  | nil =>
    intro sinks _
    refine ⟨sinks, rfl, rfl, ?_⟩
    intro j hj hj2
    simp
  | cons sr rest ih =>
    intro sinks h
    have hsr := h sr (List.mem_cons_self sr rest)
    obtain ⟨mk, hf⟩ := Option.isSome_iff_exists.mp hsr
    obtain ⟨sinks2, hok, hlen, hpt⟩ := processStallReason_ok cd externId isAPI li sinks sr mk hf
    obtain ⟨sinks3, hok3, hlen3, hpt3⟩ := ih sinks2 (by
      intro sr2 hmem
      exact h sr2 (List.mem_cons_of_mem sr hmem))
    refine ⟨sinks3, ?_, by omega, ?_⟩
    · rw [List.foldlM_cons, hok]
      simpa using hok3
    · intro j hj hj2
      have hj3 : j < sinks2.length := by omega
      obtain ⟨sid, hmet⟩ := hpt j hj hj3
      have h3 := hpt3 j hj3 hj2
      rw [h3, hmet]
      simp [List.length_append]
      omega

theorem alistFind_set_self {κ α : Type} [DecidableEq κ] (k : κ) (v : α) :
    ∀ (l : List (κ × α)), alistFind k (alistSet k v l) = some v := by
  intro l
  induction l with
  | nil => simp [alistSet, alistFind]
  | cons e rest ih =>
    obtain ⟨k2, v2⟩ := e
    by_cases h : k2 = k
    · simp [alistSet, alistFind, h]
    · simp [alistSet, alistFind, h, ih]

theorem alistFind_set_ne {κ α : Type} [DecidableEq κ] (k k2 : κ) (v : α) (h : k ≠ k2) :
    ∀ (l : List (κ × α)), alistFind k2 (alistSet k v l) = alistFind k2 l := by
  intro l
  induction l with
  | nil => simp [alistSet, alistFind, h]
  | cons e rest ih =>
    obtain ⟨k3, v3⟩ := e
    by_cases h3 : k3 = k
    · subst h3
      simp [alistSet, alistFind, h]
    · simp [alistSet, alistFind, h3, ih]

theorem alistFind_erase_self {κ α : Type} [DecidableEq κ] (k : κ) :
    ∀ (l : List (κ × α)), alistFind k (alistErase k l) = none := by
  intro l
  induction l with
  | nil => rfl
  | cons e rest ih =>
    obtain ⟨k2, v2⟩ := e
    by_cases h : k2 = k
    · simpa [alistErase, alistFind, h] using ih
    · simpa [alistErase, alistFind, h] using ih

theorem alistFind_erase_ne {κ α : Type} [DecidableEq κ] (k k2 : κ) (h : k ≠ k2) :
    ∀ (l : List (κ × α)), alistFind k2 (alistErase k l) = alistFind k2 l := by
  intro l
  induction l with
  | nil => rfl
  | cons e rest ih =>
    obtain ⟨k3, v3⟩ := e
    have hstep : alistErase k ((k3, v3) :: rest) =
        if decide ((k3, v3).1 ≠ k) = true then (k3, v3) :: alistErase k rest
        else alistErase k rest := by
      unfold alistErase
      rw [List.filter_cons]
    by_cases h3 : k3 = k
    · rw [hstep]
      have hsel : (if decide ((k3, v3).1 ≠ k) = true
          then (k3, v3) :: alistErase k rest else alistErase k rest) =
          alistErase k rest := by
        simp [h3]
      rw [hsel, ih]
      have hne2 : ¬ (k3 = k2) := by
        rw [h3]
        exact h
      simp only [alistFind]
      rw [if_neg hne2]
    · rw [hstep]
      have hsel : (if decide ((k3, v3).1 ≠ k) = true
          then (k3, v3) :: alistErase k rest else alistErase k rest) =
          (k3, v3) :: alistErase k rest := by
        simp [h3]
      rw [hsel]
      simp only [alistFind]
      by_cases h2 : k3 = k2
      · rw [if_pos h2, if_pos h2]
      · rw [if_neg h2, if_neg h2]
        exact ih

theorem alistSet_keys {κ α : Type} [DecidableEq κ] (k : κ) (v : α) :
    ∀ (l : List (κ × α)), (alistSet k v l).map Prod.fst = l.map Prod.fst ∨
      ((alistSet k v l).map Prod.fst = l.map Prod.fst ++ [k] ∧
        ¬ k ∈ l.map Prod.fst) := by
  intro l
  induction l with
  | nil =>
    right
    simp [alistSet]
  | cons e rest ih =>
    obtain ⟨k2, v2⟩ := e
    by_cases h : k2 = k
    · left
      simp [alistSet, h]
    · rcases ih with h1 | ⟨h1, h2⟩
      · left
        simp [alistSet, h, h1]
      · right
        constructor
        · simp [alistSet, h, h1]
        · simp [h2]
          intro he
          exact h he.symm

theorem alistSet_keysNodup {κ α : Type} [DecidableEq κ] (k : κ) (v : α)
    (l : List (κ × α)) (hnd : (l.map Prod.fst).Nodup) :
    ((alistSet k v l).map Prod.fst).Nodup := by
  rcases alistSet_keys k v l with h1 | ⟨h1, h2⟩
  · rw [h1]
    exact hnd
  · rw [h1]
    simp [List.nodup_append, hnd]
    intro x hx
    exact h2 (List.mem_map.mpr ⟨(k, x), hx, rfl⟩)

theorem processPcData_error (hw : Hw) (cd : ConfigureData) (externId : Nat) (isAPI : Bool)
    (st : CubinMap × List DataSink) (pc : PCData)
    (h : ∃ sr ∈ pc.stallReason,
      alistFind sr.pcSamplingStallReasonIndex cd.stallReasonIndexToMetricIndex = none) :
    processPcData hw cd externId isAPI st pc = Except.error invalidStallReasonMsg := by
  simp only [processPcData]
  rw [processSlots_error cd externId isAPI _ pc.stallReason st.2 h]

theorem processPcData_error_eq (hw : Hw) (cd : ConfigureData) (externId : Nat)
    (isAPI : Bool) (st : CubinMap × List DataSink) (pc : PCData) (e : String)
    (h : processPcData hw cd externId isAPI st pc = Except.error e) :
    e = invalidStallReasonMsg := by
  simp only [processPcData] at h
  split at h
  · rename_i e2 heq
    injection h with h2
    rw [← h2]
    exact processSlots_error_eq cd externId isAPI _ pc.stallReason st.2 e2 heq
  · exact Except.noConfusion h

theorem processBuffer_error (hw : Hw) (cd : ConfigureData) (externId : Nat) (isAPI : Bool) :
    ∀ (pcs : List PCData) (st : CubinMap × List DataSink),
    (∃ pc ∈ pcs, ∃ sr ∈ pc.stallReason,
      alistFind sr.pcSamplingStallReasonIndex cd.stallReasonIndexToMetricIndex = none) →
    pcs.foldlM (processPcData hw cd externId isAPI) st =
      Except.error invalidStallReasonMsg := by
  intro pcs
  induction pcs with
  | nil =>
    intro st h
    simp at h
  | cons pc rest ih =>
    intro st h
    rw [List.foldlM_cons]
    cases hres : processPcData hw cd externId isAPI st pc with
    | error e =>
      have he := processPcData_error_eq hw cd externId isAPI st pc e hres
      rw [he]
      rfl
    | ok st2 =>
      rcases h with ⟨pc0, hmem, hbad⟩
      rcases List.mem_cons.mp hmem with rfl | hmem2
      · rw [processPcData_error hw cd externId isAPI st _ hbad] at hres
        exact Except.noConfusion hres
      · exact ih st2 ⟨pc0, hmem2, hbad⟩

theorem drainLoop_fc_mono (hw : Hw) (cd : ConfigureData) (externId : Nat) (isAPI : Bool) :
    ∀ (fuel : Nat) (reg : CubinMap) (buf : PCSamplingData) (sinks : List DataSink)
      (fr : Bool) (fi fc : Nat) (out : CubinMap × PCSamplingData × List DataSink × Nat),
    drainLoop hw cd externId isAPI fuel reg buf sinks fr fi fc = Except.ok out →
    fc ≤ out.2.2.2 := by
  intro fuel
  induction fuel with
  | zero =>
    intro reg buf sinks fr fi fc out h
    exact Except.noConfusion h
  | succ fuel ih =>
    intro reg buf sinks fr fi fc out h
    simp only [drainLoop] at h
    split at h
    · split at h
      · exact Except.noConfusion h
      · split at h
        · have h2 := ih _ _ _ _ _ _ _ h
          omega
        · injection h with h2
          rw [← h2]
    · injection h with h2
      rw [← h2]

theorem drainLoop_first_fetch (hw : Hw) (cd : ConfigureData) (externId : Nat)
    (isAPI : Bool) (fuel : Nat) (reg : CubinMap) (buf : PCSamplingData)
    (sinks : List DataSink) (fi fc : Nat)
    (out : CubinMap × PCSamplingData × List DataSink × Nat)
    (h : drainLoop hw cd externId isAPI fuel reg buf sinks true fi fc = Except.ok out) :
    fc + 1 ≤ out.2.2.2 := by
  cases fuel with
  | zero => exact Except.noConfusion h
  | succ fuel =>
    simp only [drainLoop, or_true, if_true] at h
    split at h
    · exact Except.noConfusion h
    · exact drainLoop_fc_mono hw cd externId isAPI fuel _ _ _ _ _ _ _ h

theorem drainLoop_no_refetch (hw : Hw) (cd : ConfigureData) (externId : Nat)
    (isAPI : Bool) (fuel : Nat) (reg : CubinMap) (buf : PCSamplingData)
    (sinks : List DataSink) (fi fc : Nat) (rs : CubinMap × List DataSink)
    (hrem : buf.remainingNumPcs = 0)
    (hok : (buf.pPcData.take buf.totalNumPcs).foldlM
      (processPcData hw cd externId isAPI) (reg, sinks) = Except.ok rs) :
    drainLoop hw cd externId isAPI (fuel + 1) reg buf sinks false fi fc =
      Except.ok (rs.1, buf, rs.2, fc) := by
  by_cases htot : 0 < buf.totalNumPcs
  · simp only [drainLoop, hrem, hok]
    simp [htot]
  · have htot0 : buf.totalNumPcs = 0 := by omega
    rw [htot0] at hok
    simp only [List.take_zero, List.foldlM_nil] at hok
    injection hok with h2
    simp only [drainLoop, hrem, htot0]
    simp [← h2]

theorem drainLoop_refetch (hw : Hw) (cd : ConfigureData) (externId : Nat)
    (isAPI : Bool) (fuel : Nat) (reg : CubinMap) (buf : PCSamplingData)
    (sinks : List DataSink) (fi fc : Nat) (rs : CubinMap × List DataSink)
    (hrem : 0 < buf.remainingNumPcs)
    (hok : (buf.pPcData.take buf.totalNumPcs).foldlM
      (processPcData hw cd externId isAPI) (reg, sinks) = Except.ok rs) :
    drainLoop hw cd externId isAPI (fuel + 1) reg buf sinks false fi fc =
      drainLoop hw cd externId isAPI fuel rs.1 (hw.fetchData fi) rs.2 false
        (fi + 1) (fc + 1) := by
  simp only [drainLoop, hok]
  simp [hrem]

theorem processPcData_ok (hw : Hw) (cd : ConfigureData) (externId : Nat) (isAPI : Bool)
    (reg : CubinMap) (sinks : List DataSink) (pc : PCData) (ln : Nat)
    (hmiss : alistFind (pc.functionIndex, pc.pcOffset)
      ((alistFind pc.cubinCrc reg).getD cubinEntryDflt).1.lineInfo = none)
    (hsass : hw.sassToSource pc.functionName pc.pcOffset
      ((alistFind pc.cubinCrc reg).getD cubinEntryDflt).1.cubin
      ((alistFind pc.cubinCrc reg).getD cubinEntryDflt).1.cubinSize = (ln, none, none))
    (hmapped : ∀ sr ∈ pc.stallReason,
      (alistFind sr.pcSamplingStallReasonIndex cd.stallReasonIndexToMetricIndex).isSome = true) :
    ∃ sinks2, processPcData hw cd externId isAPI (reg, sinks) pc = Except.ok
        (alistSet pc.cubinCrc
          ({ ((alistFind pc.cubinCrc reg).getD cubinEntryDflt).1 with
              lineInfo := alistSet (pc.functionIndex, pc.pcOffset)
                ({ lineNumber := ln, functionName := pc.functionName,
                   dirName := emptyStr, fileName := emptyStr } : LineInfo)
                ((alistFind pc.cubinCrc reg).getD cubinEntryDflt).1.lineInfo },
            ((alistFind pc.cubinCrc reg).getD cubinEntryDflt).2) reg,
          sinks2) ∧
      sinks2.length = sinks.length ∧
      ∀ j (hj : j < sinks.length) (hj2 : j < sinks2.length),
        sinks2[j].metrics.length = sinks[j].metrics.length + pc.stallReason.length := by
  obtain ⟨sinks2, hok, hlen, hpt⟩ := processSlots_ok_len cd externId isAPI
      ({ lineNumber := ln, functionName := pc.functionName,
         dirName := emptyStr, fileName := emptyStr } : LineInfo)
      pc.stallReason sinks hmapped
  refine ⟨sinks2, ?_, hlen, hpt⟩
  simp only [processPcData, hmiss, getSassToSourceCorrelation, hsass, Option.getD_none,
    Option.getD_some, alistFind_set_self, hok]

/-- Claim C3: for every stall reason slot whose index is in the mapping,
exactly one metric per downstream data sink is recorded, whose kind is the
mapped metric kind, whose samples equal the observed slot count, and whose
stalled (active) count is 0 exactly when the index is in the not-issued set
and the samples count otherwise; and the fabricated two slot sample of the
spec test (index 7 mapped to memory dependency with 10 samples, index 9
mapped to the not-issued kind with 5 samples) drains into exactly the two
records (kind 0, 10, 10) and (kind 2, 5, 0). -/
theorem claim_C3 :
    (∀ (cd : ConfigureData) (externId : Nat) (isAPI : Bool) (li : LineInfo)
        (sinks : List DataSink) (sr : StallReason) (mk : Nat),
      alistFind sr.pcSamplingStallReasonIndex cd.stallReasonIndexToMetricIndex = some mk →
      ∃ sinks2, processStallReason cd externId isAPI li sinks sr = Except.ok sinks2 ∧
        sinks2.length = sinks.length ∧
        ∀ j (hj : j < sinks.length) (hj2 : j < sinks2.length),
          ∃ sid, sinks2[j].metrics = sinks[j].metrics ++
            [(sid,
              { kind := mk,
                samples := sr.samples,
                stalledSamples :=
                  if sr.pcSamplingStallReasonIndex ∈ cd.notIssuedStallReasonIndices
                  then 0 else sr.samples })]) ∧
    CuptiPCSampling.processPCSamplingData hwBase 2 regTest cdTest [sinkTest] 55 true =
      Except.ok (regExpected, cdExpected, [sinkExpectedApi], 1) :=
  ⟨fun cd externId isAPI li sinks sr mk h =>
    processStallReason_ok cd externId isAPI li sinks sr mk h, by rfl⟩

/-- Claim C3 witness: the general statement applied to the not-issued slot
of the fixture, discharging the mapping hypothesis by evaluation. -/
theorem claim_C3_witness :
    ∃ sinks2, processStallReason cdTest 55 true lineInfoExpected [sinkTest] ⟨9, 5⟩ =
        Except.ok sinks2 ∧
      sinks2.length = ([sinkTest] : List DataSink).length ∧
      ∀ j (hj : j < ([sinkTest] : List DataSink).length) (hj2 : j < sinks2.length),
        ∃ sid, sinks2[j].metrics = ([sinkTest] : List DataSink)[j].metrics ++
          [(sid,
            { kind := 2,
              samples := (⟨9, 5⟩ : StallReason).samples,
              stalledSamples :=
                if (⟨9, 5⟩ : StallReason).pcSamplingStallReasonIndex ∈
                    cdTest.notIssuedStallReasonIndices
                then 0 else (⟨9, 5⟩ : StallReason).samples })] :=
  claim_C3.1 cdTest 55 true lineInfoExpected [sinkTest] ⟨9, 5⟩ 2 (by decide)

/-- Claim C4: whenever some slot of a buffered sample carries a stall
reason index absent from the mapping of the context, the drain fails fast
with the invalid stall reason error instead of skipping the record. -/
theorem claim_C4 (hw : Hw) (fuel : Nat) (reg : CubinMap) (cd : ConfigureData)
    (sinks : List DataSink) (externId : Nat) (isAPI : Bool)
    (hfuel : 0 < fuel)
    (h : ∃ pc ∈ cd.pcSamplingData.pPcData.take cd.pcSamplingData.totalNumPcs,
      ∃ sr ∈ pc.stallReason,
        alistFind sr.pcSamplingStallReasonIndex cd.stallReasonIndexToMetricIndex = none) :
    CuptiPCSampling.processPCSamplingData hw fuel reg cd sinks externId isAPI =
      Except.error invalidStallReasonMsg := by
  cases fuel with
  | zero => omega
  | succ f =>
    unfold CuptiPCSampling.processPCSamplingData
    simp only [drainLoop, or_true, if_true]
    rw [processBuffer_error hw cd externId isAPI _ _ h]

/-- Claim C4 witness: the drain of the fixture whose sample carries the
unmapped index 8 returns the invalid stall reason error. -/
theorem claim_C4_witness :
    CuptiPCSampling.processPCSamplingData hwBase 1 regTest cdBad [sinkTest] 55 true =
      Except.error invalidStallReasonMsg :=
  claim_C4 hwBase 1 regTest cdBad [sinkTest] 55 true (by decide) (by decide)

/-- Claim C5: every successful drain issues at least one hardware fetch
(the first round always fetches); with an initially empty buffer and an
empty hardware queue exactly one fetch happens and the loop terminates; and
after the first round one iteration refetches exactly when remainingNumPcs
is positive and otherwise stops without fetching. -/
theorem claim_C5 :
    (∀ (hw : Hw) (fuel : Nat) (reg : CubinMap) (cd : ConfigureData)
        (sinks : List DataSink) (externId : Nat) (isAPI : Bool)
        (out : CubinMap × ConfigureData × List DataSink × Nat),
      CuptiPCSampling.processPCSamplingData hw fuel reg cd sinks externId isAPI =
        Except.ok out →
      1 ≤ out.2.2.2) ∧
    CuptiPCSampling.processPCSamplingData hwBase 2 [] {} [sinkTest] 55 true =
      Except.ok (([] : CubinMap), ({} : ConfigureData), [sinkTest], 1) ∧
    (∀ (hw : Hw) (cd : ConfigureData) (externId : Nat) (isAPI : Bool) (fuel : Nat)
        (reg : CubinMap) (buf : PCSamplingData) (sinks : List DataSink) (fi fc : Nat)
        (rs : CubinMap × List DataSink),
      buf.remainingNumPcs = 0 →
      (buf.pPcData.take buf.totalNumPcs).foldlM
        (processPcData hw cd externId isAPI) (reg, sinks) = Except.ok rs →
      drainLoop hw cd externId isAPI (fuel + 1) reg buf sinks false fi fc =
        Except.ok (rs.1, buf, rs.2, fc)) ∧
    (∀ (hw : Hw) (cd : ConfigureData) (externId : Nat) (isAPI : Bool) (fuel : Nat)
        (reg : CubinMap) (buf : PCSamplingData) (sinks : List DataSink) (fi fc : Nat)
        (rs : CubinMap × List DataSink),
      0 < buf.remainingNumPcs →
      (buf.pPcData.take buf.totalNumPcs).foldlM
        (processPcData hw cd externId isAPI) (reg, sinks) = Except.ok rs →
      drainLoop hw cd externId isAPI (fuel + 1) reg buf sinks false fi fc =
        drainLoop hw cd externId isAPI fuel rs.1 (hw.fetchData fi) rs.2 false
          (fi + 1) (fc + 1)) := by
  refine ⟨?_, by rfl, ?_, ?_⟩
  · intro hw fuel reg cd sinks externId isAPI out h
    unfold CuptiPCSampling.processPCSamplingData at h
    split at h
    · exact Except.noConfusion h
    · rename_i r heq
      injection h with h2
      rw [← h2]
      exact drainLoop_first_fetch hw cd externId isAPI fuel reg cd.pcSamplingData
        sinks 0 0 r heq
  · intro hw cd externId isAPI fuel reg buf sinks fi fc rs hrem hok
    exact drainLoop_no_refetch hw cd externId isAPI fuel reg buf sinks fi fc rs hrem hok
  · intro hw cd externId isAPI fuel reg buf sinks fi fc rs hrem hok
    exact drainLoop_refetch hw cd externId isAPI fuel reg buf sinks fi fc rs hrem hok

/-- Claim C5 witness: the first conjunct applied to the concrete empty
drain, and the no-refetch rule applied to an empty buffer. -/
theorem claim_C5_witness :
    (1 : Nat) ≤ (([] : CubinMap), ({} : ConfigureData), [sinkTest], 1).2.2.2 ∧
    drainLoop hwBase ({} : ConfigureData) 55 true 1 [] ({} : PCSamplingData) [sinkTest]
        false 0 5 = Except.ok ([], {}, [sinkTest], 5) :=
  ⟨claim_C5.1 hwBase 2 [] {} [sinkTest] 55 true (([] : CubinMap), ({} : ConfigureData), [sinkTest], 1) (by rfl),
    claim_C5.2.2.1 hwBase {} 55 true 0 [] {} [sinkTest] 0 5 ([], [sinkTest]) rfl rfl⟩

theorem processStallReason_noFileScope (cd : ConfigureData) (externId : Nat)
    (isAPI : Bool) (li : LineInfo) (sinks : List DataSink) (sr : StallReason) (mk : Nat)
    (hfile : li.fileName = emptyStr)
    (h : alistFind sr.pcSamplingStallReasonIndex cd.stallReasonIndexToMetricIndex = some mk) :
    processStallReason cd externId isAPI li sinks sr = Except.ok (sinks.map (fun d =>
      let p1 := if isAPI then DataSink.addScope d externId li.functionName
        else (d, externId)
      DataSink.addMetric p1.1 p1.2
        { kind := mk,
          samples := sr.samples,
          stalledSamples :=
            if sr.pcSamplingStallReasonIndex ∈ cd.notIssuedStallReasonIndices
            then 0 else sr.samples })) := by
  unfold processStallReason
  rw [h]
  have hno : ¬ (0 < li.fileName.length) := by
    rw [hfile]
    decide
  simp [hno]

/-- Claim C8: a failed source correlation is non-fatal: the cached line
identity stores empty directory and file names, processing succeeds, and
every sink still receives one metric per slot; with an empty cached file
name the per slot processing applies no file qualified child scope (only
the API level scope when the call is API scoped); and the fixture drain
with failing correlation and a non API call emits both metric records
directly under the external scope with no scope created. -/
theorem claim_C8 :
    (∀ (hw : Hw) (cd : ConfigureData) (externId : Nat) (isAPI : Bool) (reg : CubinMap)
        (sinks : List DataSink) (pc : PCData) (ln : Nat),
      alistFind (pc.functionIndex, pc.pcOffset)
        ((alistFind pc.cubinCrc reg).getD cubinEntryDflt).1.lineInfo = none →
      hw.sassToSource pc.functionName pc.pcOffset
        ((alistFind pc.cubinCrc reg).getD cubinEntryDflt).1.cubin
        ((alistFind pc.cubinCrc reg).getD cubinEntryDflt).1.cubinSize = (ln, none, none) →
      (∀ sr ∈ pc.stallReason,
        (alistFind sr.pcSamplingStallReasonIndex cd.stallReasonIndexToMetricIndex).isSome
          = true) →
      ∃ sinks2, processPcData hw cd externId isAPI (reg, sinks) pc = Except.ok
          (alistSet pc.cubinCrc
            ({ ((alistFind pc.cubinCrc reg).getD cubinEntryDflt).1 with
                lineInfo := alistSet (pc.functionIndex, pc.pcOffset)
                  ({ lineNumber := ln, functionName := pc.functionName,
                     dirName := emptyStr, fileName := emptyStr } : LineInfo)
                  ((alistFind pc.cubinCrc reg).getD cubinEntryDflt).1.lineInfo },
              ((alistFind pc.cubinCrc reg).getD cubinEntryDflt).2) reg,
            sinks2) ∧
        sinks2.length = sinks.length ∧
        ∀ j (hj : j < sinks.length) (hj2 : j < sinks2.length),
          sinks2[j].metrics.length = sinks[j].metrics.length + pc.stallReason.length) ∧
    (∀ (cd : ConfigureData) (externId : Nat) (isAPI : Bool) (li : LineInfo)
        (sinks : List DataSink) (sr : StallReason) (mk : Nat),
      li.fileName = emptyStr →
      alistFind sr.pcSamplingStallReasonIndex cd.stallReasonIndexToMetricIndex = some mk →
      processStallReason cd externId isAPI li sinks sr = Except.ok (sinks.map (fun d =>
        let p1 := if isAPI then DataSink.addScope d externId li.functionName
          else (d, externId)
        DataSink.addMetric p1.1 p1.2
          { kind := mk,
            samples := sr.samples,
            stalledSamples :=
              if sr.pcSamplingStallReasonIndex ∈ cd.notIssuedStallReasonIndices
              then 0 else sr.samples }))) ∧
    CuptiPCSampling.processPCSamplingData hwBase 2 regTest cdTest [sinkTest] 55 false =
      Except.ok (regExpected, cdExpected, [sinkExpectedNoApi], 1) :=
  ⟨fun hw cd externId isAPI reg sinks pc ln h1 h2 h3 =>
      processPcData_ok hw cd externId isAPI reg sinks pc ln h1 h2 h3,
    fun cd externId isAPI li sinks sr mk hf h =>
      processStallReason_noFileScope cd externId isAPI li sinks sr mk hf h,
    by rfl⟩

/-- Claim C8 witness: the per sample statement applied to the fixture whose
correlation fails, discharging the cache miss, oracle and mapping
hypotheses by evaluation. -/
theorem claim_C8_witness :
    ∃ sinks2, processPcData hwBase cdTest 55 true (regTest, [sinkTest]) pcDataTest =
        Except.ok
          (alistSet pcDataTest.cubinCrc
            ({ ((alistFind pcDataTest.cubinCrc regTest).getD cubinEntryDflt).1 with
                lineInfo := alistSet (pcDataTest.functionIndex, pcDataTest.pcOffset)
                  ({ lineNumber := 0, functionName := pcDataTest.functionName,
                     dirName := emptyStr, fileName := emptyStr } : LineInfo)
                  ((alistFind pcDataTest.cubinCrc regTest).getD cubinEntryDflt).1.lineInfo },
              ((alistFind pcDataTest.cubinCrc regTest).getD cubinEntryDflt).2) regTest,
            sinks2) ∧
      sinks2.length = ([sinkTest] : List DataSink).length ∧
      ∀ j (hj : j < ([sinkTest] : List DataSink).length) (hj2 : j < sinks2.length),
        sinks2[j].metrics.length = ([sinkTest] : List DataSink)[j].metrics.length +
          pcDataTest.stallReason.length :=
  claim_C8.1 hwBase cdTest 55 true regTest [sinkTest] pcDataTest 0
    (by decide) (by rfl) (by decide)

theorem initCtx_initialized (hw : Hw) (s : CuptiPCSampling) (context : Nat) :
    (hw.ctxIdOf context) ∈ (CuptiPCSampling.initCtx hw s context).1.contextInitialized := by
  unfold CuptiPCSampling.initCtx doubleCheckedLock
  by_cases hmem : (hw.ctxIdOf context) ∈ s.contextInitialized
  · simp [hmem]
  · simp [hmem, setInsert]

theorem initCtx_repeat (hw : Hw) (s : CuptiPCSampling) (context : Nat)
    (hmem : (hw.ctxIdOf context) ∈ s.contextInitialized) :
    CuptiPCSampling.initCtx hw s context = (s, []) := by
  unfold CuptiPCSampling.initCtx doubleCheckedLock
  simp [hmem]

/-- Claim C6: starting while the started flag is already true is a silent
no-op (state unchanged, no hardware call), start always leaves the flag
true (so a second consecutive start is a no-op), stopping while the flag is
false is a silent no-op (no hardware stop, no drain), and every successful
stop leaves the flag false (so a second consecutive stop is a no-op). -/
theorem claim_C6 :
    (∀ (hw : Hw) (s : CuptiPCSampling) (context : Nat),
      s.pcSamplingStarted = true → CuptiPCSampling.start hw s context = (s, [])) ∧
    (∀ (hw : Hw) (s : CuptiPCSampling) (context : Nat),
      (CuptiPCSampling.start hw s context).1.pcSamplingStarted = true) ∧
    (∀ (hw : Hw) (fuel : Nat) (s : CuptiPCSampling) (context externId : Nat)
        (isAPI : Bool) (sinks : List DataSink),
      s.pcSamplingStarted = false →
      CuptiPCSampling.stop hw fuel s context externId isAPI sinks =
        Except.ok (s, sinks, [])) ∧
    (∀ (hw : Hw) (fuel : Nat) (s : CuptiPCSampling) (context externId : Nat)
        (isAPI : Bool) (sinks : List DataSink) (s2 : CuptiPCSampling)
        (sinks2 : List DataSink) (ev : List HwEvent),
      CuptiPCSampling.stop hw fuel s context externId isAPI sinks =
        Except.ok (s2, sinks2, ev) →
      s2.pcSamplingStarted = false) := by
  refine ⟨?_, ?_, ?_, ?_⟩
  · intro hw s context h
    unfold CuptiPCSampling.start doubleCheckedLock
    simp [h]
  · intro hw s context
    unfold CuptiPCSampling.start doubleCheckedLock
    by_cases h : s.pcSamplingStarted
    · simp [h]
    · simp [h]
  · intro hw fuel s context externId isAPI sinks h
    unfold CuptiPCSampling.stop doubleCheckedLock
    simp [h]
  · intro hw fuel s context externId isAPI sinks s2 sinks2 ev h
    unfold CuptiPCSampling.stop doubleCheckedLock at h
    by_cases hs : s.pcSamplingStarted
    · simp [hs] at h
      split at h
      · exact Except.noConfusion h
      · injection h with h2
        have h3 := congrArg (fun t : CuptiPCSampling × List DataSink × List HwEvent =>
          t.1.pcSamplingStarted) h2
        exact h3.symm
    · simp [hs] at h
      rw [← h.1]
      simpa using hs

/-- Claim C6 witness: the no-op statements applied to concrete started and
stopped states. -/
theorem claim_C6_witness :
    CuptiPCSampling.start hwBase stateStarted 5 = (stateStarted, []) ∧
    CuptiPCSampling.stop hwBase 2 stateStopped 5 60 true [sinkTest] =
      Except.ok (stateStopped, [sinkTest], []) :=
  ⟨claim_C6.1 hwBase stateStarted 5 (by rfl),
    claim_C6.2.2.1 hwBase 2 stateStopped 5 60 true [sinkTest] (by rfl)⟩

/-- Claim C7: repeated initialize calls are idempotent (a second call on
the resulting state is a silent no-op, and n+1 iterated calls equal one
call); a first initialize of a fresh context enables hardware sampling
exactly once, applies the configuration batch exactly once, and creates the
ConfigureData entry of the context id; and initialize preserves the
no-duplicate-keys invariant of the context id map, so the map never holds
more than one entry per context id. -/
theorem claim_C7 :
    (∀ (hw : Hw) (s : CuptiPCSampling) (context : Nat),
      CuptiPCSampling.initCtx hw (CuptiPCSampling.initCtx hw s context).1 context =
        ((CuptiPCSampling.initCtx hw s context).1, [])) ∧
    (∀ (hw : Hw) (s : CuptiPCSampling) (context : Nat) (n : Nat),
      (fun st => (CuptiPCSampling.initCtx hw st context).1)^[n + 1] s =
        (CuptiPCSampling.initCtx hw s context).1) ∧
    (∀ (hw : Hw) (s : CuptiPCSampling) (context : Nat),
      ¬ (hw.ctxIdOf context) ∈ s.contextInitialized →
      ((CuptiPCSampling.initCtx hw s context).2.countP isEnableEvent = 1 ∧
        (CuptiPCSampling.initCtx hw s context).2.countP isSetConfigEvent = 1 ∧
        (alistFind (hw.ctxIdOf context)
          (CuptiPCSampling.initCtx hw s context).1.contextIdToConfigureData).isSome
          = true)) ∧
    (∀ (hw : Hw) (s : CuptiPCSampling) (context : Nat),
      (s.contextIdToConfigureData.map Prod.fst).Nodup →
      ((CuptiPCSampling.initCtx hw s context).1.contextIdToConfigureData.map
        Prod.fst).Nodup) := by
  refine ⟨?_, ?_, ?_, ?_⟩
  · intro hw s context
    exact initCtx_repeat hw _ context (initCtx_initialized hw s context)
  · intro hw s context n
    induction n with
    | zero => rfl
    | succ n ih =>
      rw [Function.iterate_succ_apply', ih]
      have h2 := initCtx_repeat hw (CuptiPCSampling.initCtx hw s context).1 context
        (initCtx_initialized hw s context)
      simp [h2]
  · intro hw s context hmem
    unfold CuptiPCSampling.initCtx doubleCheckedLock
    simp [hmem]
    refine ⟨?_, ?_, ?_⟩
    · simp [ConfigureData.initCtx, isEnableEvent, isSetConfigEvent]
    · simp [ConfigureData.initCtx, isEnableEvent, isSetConfigEvent]
    · simp [alistFind_set_self]
  · intro hw s context hnd
    unfold CuptiPCSampling.initCtx doubleCheckedLock
    by_cases hmem : (hw.ctxIdOf context) ∈ s.contextInitialized
    · simp [hmem, hnd]
    · simp [hmem]
      exact alistSet_keysNodup _ _ _ hnd

/-- Claim C7 witness: the first initialize of context 7 on the empty state
enables and configures exactly once and creates the map entry. -/
theorem claim_C7_witness :
    (CuptiPCSampling.initCtx hwBase {} 7).2.countP isEnableEvent = 1 ∧
    (CuptiPCSampling.initCtx hwBase {} 7).2.countP isSetConfigEvent = 1 ∧
    (alistFind (hwBase.ctxIdOf 7)
      (CuptiPCSampling.initCtx hwBase {} 7).1.contextIdToConfigureData).isSome = true :=
  claim_C7.2.2.1 hwBase {} 7 (by decide)

/-- Claim C9: the host buffer is allocated with the fixed default PC
capacity and one stall reason slot array per PC sized by the number of
valid stall reasons; the per record size is the full record size minus the
width of one trailing 32-bit field exactly when the runtime driver version
is below the 12.4 boundary while the header version is at or beyond it, and
the full size otherwise; and in ConfigureData initialization the buffer is
sized with the numValidStalls of the stall reason matching and the buffer
attribute is built after the stall reason attribute in the batch. -/
theorem claim_C9 :
    (∀ (hw : Hw) (c v : Nat),
      (allocPCSamplingData hw c v).size =
        (if hw.libVersion < CUPTI_CUDA12_4_VERSION ∧
            CUPTI_CUDA12_4_VERSION ≤ hw.cuptiApiVersion
          then hw.sizeofPCData - CUPTI_CUDA12_4_PC_DATA_PADDING_SIZE
          else hw.sizeofPCData) ∧
      (allocPCSamplingData hw c v).collectNumPcs = c ∧
      (allocPCSamplingData hw c v).pPcData.length = c ∧
      ∀ pc ∈ (allocPCSamplingData hw c v).pPcData, pc.stallReason.length = v) ∧
    (∀ (hw : Hw) (cd0 : ConfigureData) (context : Nat),
      (ConfigureData.initCtx cd0 hw context).1.pcSamplingData =
        allocPCSamplingData hw DataBufferPCCount
          (ConfigureData.initCtx cd0 hw context).1.numValidStallReasons ∧
      (ConfigureData.initCtx cd0 hw context).1.numValidStallReasons =
        (matchStallReasonsToIndices pcSamplingMetricNames
          (hw.stallReasonsOf context).1 (hw.stallReasonsOf context).2
          cd0.stallReasonIndexToMetricIndex
          cd0.notIssuedStallReasonIndices).numValidStalls ∧
      ((ConfigureData.initCtx cd0 hw context).1.configurationInfos.drop
          cd0.configurationInfos.length) =
        [ConfigInfo.stallReason
            (ConfigureData.initCtx cd0 hw context).1.numValidStallReasons
            (ConfigureData.initCtx cd0 hw context).1.stallReasonIndices,
          ConfigInfo.samplingPeriod DefaultFrequency,
          ConfigInfo.hardwareBufferSize HardwareBufferSize,
          ConfigInfo.scratchBufferSize ScratchBufferSize,
          ConfigInfo.samplingDataBuffer
            (ConfigureData.initCtx cd0 hw context).1.pcSamplingData,
          ConfigInfo.startStopControl true,
          ConfigInfo.collectionMode]) ∧
    (allocPCSamplingData hwBase 4 2).size = 36 ∧
    (allocPCSamplingData hwNewDriver 4 2).size = 40 := by
  refine ⟨?_, ?_, by decide, by decide⟩
  · intro hw c v
    refine ⟨rfl, rfl, by simp [allocPCSamplingData], ?_⟩
    intro pc hmem
    simp [allocPCSamplingData] at hmem
    rw [hmem.2]
    simp
  · intro hw cd0 context
    refine ⟨rfl, rfl, ?_⟩
    simp only [ConfigureData.initCtx]
    rw [List.drop_left]

/-- Claim C9 witness: the allocation statement applied at a concrete
capacity and slot count. -/
theorem claim_C9_witness :
    ∀ pc ∈ (allocPCSamplingData hwBase 4 2).pPcData, pc.stallReason.length = 2 :=
  (claim_C9.1 hwBase 4 2).2.2.2

/-- Claim C10: finalize on an initialized context erases exactly that
context id from the ConfigureData map and the initialized set, leaves every
other context id and the whole registry untouched, emits only the disable
call for that context, and preserves the global started flag; the started
flag is also preserved by initialize, loadModule and unloadModule, and
start never clears it, so only stop clears the flag. -/
theorem claim_C10 :
    (∀ (hw : Hw) (s : CuptiPCSampling) (context : Nat),
      (hw.ctxIdOf context) ∈ s.contextInitialized →
      (alistFind (hw.ctxIdOf context)
          (CuptiPCSampling.finalize hw s context).1.contextIdToConfigureData = none ∧
        (∀ k, ¬ k = hw.ctxIdOf context →
          alistFind k (CuptiPCSampling.finalize hw s context).1.contextIdToConfigureData =
            alistFind k s.contextIdToConfigureData) ∧
        ¬ (hw.ctxIdOf context) ∈ (CuptiPCSampling.finalize hw s context).1.contextInitialized ∧
        (∀ k, ¬ k = hw.ctxIdOf context →
          (k ∈ (CuptiPCSampling.finalize hw s context).1.contextInitialized ↔
            k ∈ s.contextInitialized)) ∧
        (CuptiPCSampling.finalize hw s context).1.pcSamplingStarted = s.pcSamplingStarted ∧
        (CuptiPCSampling.finalize hw s context).1.cubinCrcToCubinData =
          s.cubinCrcToCubinData ∧
        (CuptiPCSampling.finalize hw s context).2 =
          [HwEvent.disablePCSampling context])) ∧
    (∀ (hw : Hw) (s : CuptiPCSampling) (context : Nat),
      (CuptiPCSampling.initCtx hw s context).1.pcSamplingStarted = s.pcSamplingStarted) ∧
    (∀ (hw : Hw) (s : CuptiPCSampling) (cubin : String) (cubinSize : Nat),
      (CuptiPCSampling.loadModule hw s cubin cubinSize).pcSamplingStarted =
        s.pcSamplingStarted) ∧
    (∀ (hw : Hw) (s : CuptiPCSampling) (cubin : String) (cubinSize : Nat),
      (CuptiPCSampling.unloadModule hw s cubin cubinSize).pcSamplingStarted =
        s.pcSamplingStarted) ∧
    (∀ (hw : Hw) (s : CuptiPCSampling) (context : Nat),
      (CuptiPCSampling.finalize hw s context).1.pcSamplingStarted =
        s.pcSamplingStarted) ∧
    (∀ (hw : Hw) (s : CuptiPCSampling) (context : Nat),
      s.pcSamplingStarted = true →
      (CuptiPCSampling.start hw s context).1.pcSamplingStarted = true) := by
  refine ⟨?_, ?_, ?_, ?_, ?_, ?_⟩
  · intro hw s context hmem
    unfold CuptiPCSampling.finalize
    simp only [hmem, decide_eq_true_eq, if_pos]
    refine ⟨alistFind_erase_self _ _, ?_, ?_, ?_, trivial, trivial, trivial⟩
    · intro k hk
      exact alistFind_erase_ne _ _ (fun he => hk he.symm) _
    · simp
    · intro k hk
      simp [List.mem_filter, hk]
  · intro hw s context
    unfold CuptiPCSampling.initCtx doubleCheckedLock
    by_cases hmem : (hw.ctxIdOf context) ∈ s.contextInitialized
    · simp [hmem]
    · simp [hmem]
  · intro hw s cubin cubinSize
    unfold CuptiPCSampling.loadModule
    rfl
  · intro hw s cubin cubinSize
    unfold CuptiPCSampling.unloadModule
    by_cases h : 1 < ((alistFind (hw.crcOf cubin cubinSize) s.cubinCrcToCubinData).getD
        cubinEntryDflt).2
    · simp [h]
    · simp [h]
  · intro hw s context
    unfold CuptiPCSampling.finalize
    by_cases hmem : (hw.ctxIdOf context) ∈ s.contextInitialized
    · simp [hmem]
    · simp [hmem]
  · intro hw s context h
    unfold CuptiPCSampling.start doubleCheckedLock
    simp [h]

/-- Claim C10 witness: finalize applied to the started fixture state with
context 5 initialized. -/
theorem claim_C10_witness :
    alistFind (hwBase.ctxIdOf 5)
        (CuptiPCSampling.finalize hwBase stateStarted 5).1.contextIdToConfigureData
        = none ∧
    (CuptiPCSampling.finalize hwBase stateStarted 5).1.pcSamplingStarted =
      stateStarted.pcSamplingStarted ∧
    (CuptiPCSampling.finalize hwBase stateStarted 5).2 =
      [HwEvent.disablePCSampling 5] := by
  have h := claim_C10.1 hwBase stateStarted 5 (by decide)
  exact ⟨h.1, h.2.2.2.2.1, h.2.2.2.2.2.2⟩
